import Mathlib

/-!
Shallow embedding of the `chrome_dino_gym` core simulation
(`src/chrome_dino_gym/core/physics.py`, `game_objects.py`, `game_engine.py`).

Python floats are modelled as exact rationals (`ℚ`), Python ints as `ℤ`.
Where the source performs float arithmetic whose IEEE-754 rounding is
observable in a property proved here (`self.speed +=
self.config.speed_increment`, with the float literal `0.001`), the model
applies `fl`, binary64 round-to-nearest, ties-to-even, to the exact sum.
The process-global `random` module is modelled as an explicit stream of
naturals threaded through every operation that draws randomness: the engine
does not own a generator, exactly as in the source, where every draw goes
through the module-level `random` functions.

Python's `list` iteration with in-place `remove` (used by
`DinoGameEngine._update_obstacles` / `_update_clouds`) is modelled by an
index-based loop: the iterator yields the element at the current cursor,
the body may `remove` the first equal element (shifting the tail left),
and the cursor increments regardless, which skips the element that slid
into the removed slot.
-/

namespace DinoGym

/- Constants of `PhysicsConfig` (`physics.py`), with the `__post_init__`
defaults for the mutable fields. -/
namespace PHYSICS

def GRAVITY : ℚ := 3/5
def JUMP_VELOCITY : ℚ := -12
def BASE_SPEED : ℚ := 6
/-- `speed_increment = 0.001`: the exact value of the IEEE-754 binary64
literal `0.001` that the Python source stores, namely
`1152921504606847 / 2^60` (Python floats are binary64, so the written
decimal `0.001` denotes this rational, not `1/1000`). -/
def SPEED_INCREMENT : ℚ := 1152921504606847 / 1152921504606846976
def MAX_SPEED : ℚ := 15
def GROUND_Y : ℚ := 200
def GAME_WIDTH : ℤ := 600
def GAME_HEIGHT : ℤ := 300
def DINO_NORMAL_WIDTH : ℤ := 44
def DINO_NORMAL_HEIGHT : ℤ := 47
def DINO_DUCK_WIDTH : ℤ := 59
def DINO_DUCK_HEIGHT : ℤ := 26
def DINO_X_POSITION : ℚ := 50
def MIN_OBSTACLE_GAP : ℤ := 120
def MAX_OBSTACLE_GAP : ℤ := 200
def CACTUS_VARIANTS : List (ℤ × ℤ) := [(17, 35), (34, 35), (51, 35)]
def BIRD_FLIGHT_HEIGHTS : List ℚ := [150, 100, 75]
def BIRD_WIDTH : ℤ := 46
def BIRD_HEIGHT : ℤ := 40
def CLOUD_SPAWN_RATE_MIN : ℤ := 200
def CLOUD_SPAWN_RATE_MAX : ℤ := 400
def CLOUD_SPEED : ℚ := 1

end PHYSICS

/-! ### IEEE-754 binary64 rounding

Python floats are binary64.  `fl q` is the binary64 value nearest to the
rational `q` (ties to even), with unbounded exponent range: the engine's
speeds stay in `[6, 16)`, far from overflow and subnormals, so this models
the hardware rounding of `self.speed += self.config.speed_increment`
exactly. -/

/-- Round a rational to the nearest integer, ties to even
(`Int.ediv x.num x.den` is the floor of `x`). -/
def roundHalfEven (x : ℚ) : ℤ :=
  let n := Int.ediv x.num (x.den : ℤ)
  let r : ℚ := x - (n : ℚ)
  if r < 1/2 then n
  else if 1/2 < r then n + 1
  else if n % 2 = 0 then n else n + 1

/-- Upward scan for the binade exponent: starting from a lower witness
`2^e ≤ q`, increase `e` while `2^(e+1) ≤ q` still holds. -/
def expoUp : ℕ → ℤ → ℚ → ℤ
  | 0, e, _ => e
  | f + 1, e, q => if (2:ℚ) ^ (e + 1) ≤ q then expoUp f (e + 1) q else e

/-- Downward scan for the binade exponent: starting from an upper witness
`q < 2^(e+1)`, decrease `e` while `q < 2^e`. -/
def expoDown : ℕ → ℤ → ℚ → ℤ
  | 0, e, _ => e
  | f + 1, e, q => if q < (2:ℚ) ^ e then expoDown f (e - 1) q else e

/-- Binade exponent of a positive rational: the `e` with `2^e ≤ q <
2^(e+1)`.  The fuel 1100 covers every magnitude a binary64 value can
take. -/
def expo (q : ℚ) : ℤ :=
  if (1:ℚ) ≤ q then expoUp 1100 0 q else expoDown 1100 (-1) q

/-- Round a positive rational to 53 significant bits, nearest,
ties to even. -/
def flPos (q : ℚ) : ℚ :=
  let e := expo q
  if e ≤ 52 then
    (roundHalfEven (q * ((2 ^ (52 - e).toNat : ℕ) : ℚ)) : ℚ) / ((2 ^ (52 - e).toNat : ℕ) : ℚ)
  else
    (roundHalfEven (q / ((2 ^ (e - 52).toNat : ℕ) : ℚ)) : ℚ) * ((2 ^ (e - 52).toNat : ℕ) : ℚ)

/-- IEEE-754 binary64 rounding of a rational
(round to nearest, ties to even). -/
def fl (q : ℚ) : ℚ :=
  if q = 0 then 0 else if q < 0 then -flPos (-q) else flPos q

/-- The process-global random generator, abstracted as a stream of naturals
(`f`) with a read cursor (`k`).  All engine instances in one process share
one such value, mirroring the module-level `random` state. -/
structure Rng where
  f : ℕ → ℕ
  k : ℕ

/-- Consume one raw draw from the global stream. -/
def Rng.next (g : Rng) : ℕ × Rng := (g.f g.k, ⟨g.f, g.k + 1⟩)

/-- `random.randint(a, b)`: one draw, result in `[a, b]` (inclusive) for
`a ≤ b`. -/
def Rng.randint (g : Rng) (a b : ℤ) : ℤ × Rng :=
  let p := g.next
  (a + (p.1 : ℤ) % (b - a + 1), p.2)

/-- `DinoAction` (`game_objects.py`): IDLE = 0, JUMP = 1, DUCK = 2. -/
inductive DinoAction where
  | IDLE
  | JUMP
  | DUCK
deriving DecidableEq

/-- Python `int(q)` on a float: truncation toward zero. -/
def pyInt (q : ℚ) : ℤ := Int.tdiv q.num (q.den : ℤ)

/-- A `pygame.Rect` as built by `GameObject.get_rect`: integer position and
size. -/
structure PyRect where
  x : ℤ
  y : ℤ
  w : ℤ
  h : ℤ
deriving DecidableEq

/-- `pygame.Rect.colliderect`: rectangles with zero width or height never
collide; otherwise the (normalized) rectangles must overlap strictly on
both axes. -/
def colliderect (A B : PyRect) : Bool :=
  decide (A.w ≠ 0) && decide (A.h ≠ 0) && decide (B.w ≠ 0) && decide (B.h ≠ 0) &&
  decide (min A.x (A.x + A.w) < max B.x (B.x + B.w)) &&
  decide (min B.x (B.x + B.w) < max A.x (A.x + A.w)) &&
  decide (min A.y (A.y + A.h) < max B.y (B.y + B.h)) &&
  decide (min B.y (B.y + B.h) < max A.y (A.y + A.h))

/-- `Dinosaur` dataclass state. -/
structure Dinosaur where
  x : ℚ
  y : ℚ
  width : ℤ
  height : ℤ
  velocity_y : ℚ
  is_jumping : Bool
  is_ducking : Bool
deriving DecidableEq

/-- `Dinosaur(x=…, y=…)` followed by `__post_init__`, which overrides `y`
to the ground coordinate and installs the normal bounding box. -/
def Dinosaur.init (x _y : ℚ) : Dinosaur :=
  { x := x, y := PHYSICS.GROUND_Y, width := PHYSICS.DINO_NORMAL_WIDTH,
    height := PHYSICS.DINO_NORMAL_HEIGHT, velocity_y := 0,
    is_jumping := false, is_ducking := false }

/-- `Dinosaur._update_dimensions`. -/
def Dinosaur.update_dimensions (d : Dinosaur) : Dinosaur :=
  if d.is_ducking && !d.is_jumping then
    { d with
        width := PHYSICS.DINO_DUCK_WIDTH
        height := PHYSICS.DINO_DUCK_HEIGHT
        y := d.y + ((d.height : ℚ) - (PHYSICS.DINO_DUCK_HEIGHT : ℚ)) }
  else
    { d with
        width := PHYSICS.DINO_NORMAL_WIDTH
        height := PHYSICS.DINO_NORMAL_HEIGHT
        y := if d.height ≠ PHYSICS.DINO_NORMAL_HEIGHT then
               d.y - ((PHYSICS.DINO_NORMAL_HEIGHT : ℚ) - (d.height : ℚ))
             else d.y }

/-- `Dinosaur.jump` (the boolean return value is unused by the engine). -/
def Dinosaur.jump (d : Dinosaur) : Dinosaur :=
  if !d.is_jumping then
    Dinosaur.update_dimensions
      { d with
          velocity_y := PHYSICS.JUMP_VELOCITY
          is_jumping := true
          is_ducking := false }
  else d

/-- `Dinosaur.duck` (the boolean return value is unused by the engine). -/
def Dinosaur.duck (d : Dinosaur) : Dinosaur :=
  if !d.is_jumping then Dinosaur.update_dimensions { d with is_ducking := true } else d

/-- `Dinosaur.stop_duck`. -/
def Dinosaur.stop_duck (d : Dinosaur) : Dinosaur :=
  if d.is_ducking then Dinosaur.update_dimensions { d with is_ducking := false } else d

/-- `Dinosaur.update`: vertical physics integration and landing clamp. -/
def Dinosaur.update (d : Dinosaur) : Dinosaur :=
  if d.is_jumping then
    let v := d.velocity_y + PHYSICS.GRAVITY
    let y := d.y + v
    if PHYSICS.GROUND_Y ≤ y then
      Dinosaur.update_dimensions
        { d with
            y := PHYSICS.GROUND_Y
            velocity_y := 0
            is_jumping := false }
    else { d with y := y, velocity_y := v }
  else d

/-- Discriminant for the two obstacle subclasses. -/
inductive ObstacleKind where
  | cactus
  | bird
deriving DecidableEq

/-- `Obstacle` dataclass state; `variant` holds `Cactus.variant` or
`Bird.flight_level` (both participate in dataclass equality). -/
structure Obstacle where
  x : ℚ
  y : ℚ
  width : ℤ
  height : ℤ
  speed : ℚ
  kind : ObstacleKind
  variant : ℤ
deriving DecidableEq

/-- `Obstacle.update`: move leftward by own speed. -/
def Obstacle.update (o : Obstacle) : Obstacle := { o with x := o.x - o.speed }

/-- `Obstacle.is_off_screen`: trailing edge past the left boundary. -/
def Obstacle.is_off_screen (o : Obstacle) : Bool := decide (o.x + (o.width : ℚ) < 0)

/-- Python `speed or PHYSICS.BASE_SPEED` (0.0 is falsy). -/
def resolveSpeed (sp : Option ℚ) : ℚ :=
  match sp with
  | none => PHYSICS.BASE_SPEED
  | some s => if s = 0 then PHYSICS.BASE_SPEED else s

/-- `Cactus.__init__`. -/
def Cactus.init (x : ℚ) (variant : ℤ) (sp : Option ℚ) : Obstacle :=
  let v := variant % (PHYSICS.CACTUS_VARIANTS.length : ℤ)
  let vd := PHYSICS.CACTUS_VARIANTS.getD v.toNat (0, 0)
  { x := x, y := PHYSICS.GROUND_Y - (vd.2 : ℚ), width := vd.1, height := vd.2,
    speed := resolveSpeed sp, kind := ObstacleKind.cactus, variant := v }

/-- `Bird.__init__`. -/
def Bird.init (x : ℚ) (flight_level : ℤ) (sp : Option ℚ) : Obstacle :=
  let v := flight_level % (PHYSICS.BIRD_FLIGHT_HEIGHTS.length : ℤ)
  let fh := PHYSICS.BIRD_FLIGHT_HEIGHTS.getD v.toNat 0
  { x := x, y := fh, width := PHYSICS.BIRD_WIDTH, height := PHYSICS.BIRD_HEIGHT,
    speed := resolveSpeed sp, kind := ObstacleKind.bird, variant := v }

/-- `Cloud` dataclass state. -/
structure Cloud where
  x : ℚ
  y : ℚ
  speed : ℚ
deriving DecidableEq

/-- `Cloud.update`. -/
def Cloud.update (c : Cloud) : Cloud := { c with x := c.x - c.speed }

/-- `Cloud.is_off_screen` (hard-coded width 46). -/
def Cloud.is_off_screen (c : Cloud) : Bool := decide (c.x + 46 < 0)

/-- `GameObject.get_rect` for the dinosaur. -/
def Dinosaur.get_rect (d : Dinosaur) : PyRect :=
  ⟨pyInt d.x, pyInt d.y, d.width, d.height⟩

/-- `GameObject.get_rect` for an obstacle. -/
def Obstacle.get_rect (o : Obstacle) : PyRect :=
  ⟨pyInt o.x, pyInt o.y, o.width, o.height⟩

/-- `GameObject.collides_with` as evaluated by the engine: dinosaur against
an obstacle. -/
def Dinosaur.collides_with (d : Dinosaur) (o : Obstacle) : Bool :=
  colliderect d.get_rect o.get_rect

/-- One iteration tranche of a Python `for x in lst: x.update(); if cond:
lst.remove(x)` loop, with cursor `i`.  `lst.remove` deletes the first
element equal to its argument; the cursor then still advances, skipping
the element that shifted into the freed slot.  The fuel (first argument)
is instantiated with the initial list length, which bounds the number of
iterations since the cursor grows by one per iteration and the list never
grows. -/
def cullAux {α : Type} [DecidableEq α] (step : α → α) (off : α → Bool) :
    ℕ → List α → ℕ → List α
  | 0, l, _ => l
  | fuel + 1, l, i =>
    if h : i < l.length then
      cullAux step off fuel
        (if off (step (l.get ⟨i, h⟩)) then
          (l.set i (step (l.get ⟨i, h⟩))).erase (step (l.get ⟨i, h⟩))
         else l.set i (step (l.get ⟨i, h⟩)))
        (i + 1)
    else l

/-- The full advance-and-cull loop over a collection. -/
def cullList {α : Type} [DecidableEq α] (step : α → α) (off : α → Bool)
    (l : List α) : List α :=
  cullAux step off l.length l 0

/-- Python `width or DEFAULT` for the optional constructor dimensions
(`None` and `0` are falsy). -/
def resolveDim (w : Option ℤ) (dflt : ℤ) : ℤ :=
  match w with
  | none => dflt
  | some v => if v = 0 then dflt else v

/-- `DinoGameEngine` instance state. -/
structure DinoGameEngine where
  width : ℤ
  height : ℤ
  ground_y : ℚ
  score : ℤ
  game_over : Bool
  speed : ℚ
  dinosaur : Dinosaur
  obstacles : List Obstacle
  clouds : List Cloud
  obstacle_timer : ℚ
  next_obstacle_distance : ℤ
  cloud_timer : ℤ
  cloud_spawn_rate : ℤ
deriving DecidableEq

/-- `DinoGameEngine.__init__`: draws the initial obstacle gap and cloud
spawn rate from the global generator. -/
def DinoGameEngine.init (w h : Option ℤ) (g : Rng) : DinoGameEngine × Rng :=
  let wd := resolveDim w PHYSICS.GAME_WIDTH
  let ht := resolveDim h PHYSICS.GAME_HEIGHT
  let p1 := g.randint PHYSICS.MIN_OBSTACLE_GAP PHYSICS.MAX_OBSTACLE_GAP
  let p2 := p1.2.randint PHYSICS.CLOUD_SPAWN_RATE_MIN PHYSICS.CLOUD_SPAWN_RATE_MAX
  ({ width := wd, height := ht, ground_y := PHYSICS.GROUND_Y, score := 0,
     game_over := false, speed := PHYSICS.BASE_SPEED,
     dinosaur := Dinosaur.init PHYSICS.DINO_X_POSITION PHYSICS.GROUND_Y,
     obstacles := [], clouds := [], obstacle_timer := 0,
     next_obstacle_distance := p1.1, cloud_timer := 0, cloud_spawn_rate := p2.1 }, p2.2)

/-- `DinoGameEngine.reset`: redraws the obstacle gap only; the cloud spawn
rate field is left as it was. -/
def DinoGameEngine.reset (e : DinoGameEngine) (g : Rng) : DinoGameEngine × Rng :=
  let p := g.randint PHYSICS.MIN_OBSTACLE_GAP PHYSICS.MAX_OBSTACLE_GAP
  ({ e with
      score := 0
      game_over := false
      speed := PHYSICS.BASE_SPEED
      dinosaur := Dinosaur.init PHYSICS.DINO_X_POSITION e.ground_y
      obstacles := []
      clouds := []
      obstacle_timer := 0
      cloud_timer := 0
      next_obstacle_distance := p.1 }, p.2)

/-- `DinoGameEngine._spawn_obstacle`: the appended list of obstacles, after
drawing the kind and the variant / flight level. -/
def DinoGameEngine.spawn_obstacle (e : DinoGameEngine) (g : Rng) :
    List Obstacle × Rng :=
  let p := g.next
  if p.1 % 2 = 0 then
    let q := p.2.randint 0 ((PHYSICS.CACTUS_VARIANTS.length : ℤ) - 1)
    (e.obstacles ++ [Cactus.init (e.width : ℚ) q.1 (some e.speed)], q.2)
  else
    let q := p.2.randint 0 ((PHYSICS.BIRD_FLIGHT_HEIGHTS.length : ℤ) - 1)
    (e.obstacles ++ [Bird.init (e.width : ℚ) q.1 (some e.speed)], q.2)

/-- `DinoGameEngine._update_obstacles`. -/
def DinoGameEngine.update_obstacles (e : DinoGameEngine) (g : Rng) :
    DinoGameEngine × Rng :=
  let culled := cullList Obstacle.update Obstacle.is_off_screen e.obstacles
  let timer := e.obstacle_timer + e.speed
  let e1 := { e with obstacles := culled, obstacle_timer := timer }
  if (e1.next_obstacle_distance : ℚ) ≤ timer then
    let p := e1.spawn_obstacle g
    let q := p.2.randint PHYSICS.MIN_OBSTACLE_GAP PHYSICS.MAX_OBSTACLE_GAP
    ({ e1 with
        obstacles := p.1
        obstacle_timer := 0
        next_obstacle_distance := q.1 }, q.2)
  else (e1, g)

/-- `DinoGameEngine._update_clouds`. -/
def DinoGameEngine.update_clouds (e : DinoGameEngine) (g : Rng) :
    DinoGameEngine × Rng :=
  let culled := cullList Cloud.update Cloud.is_off_screen e.clouds
  let timer := e.cloud_timer + 1
  if e.cloud_spawn_rate ≤ timer then
    let p := g.randint 20 100
    let q := p.2.randint PHYSICS.CLOUD_SPAWN_RATE_MIN PHYSICS.CLOUD_SPAWN_RATE_MAX
    ({ e with
        clouds := culled ++ [⟨(e.width : ℚ), (p.1 : ℚ), PHYSICS.CLOUD_SPEED⟩]
        cloud_timer := 0
        cloud_spawn_rate := q.1 }, q.2)
  else ({ e with clouds := culled, cloud_timer := timer }, g)

/-- `DinoGameEngine._check_collisions`. -/
def DinoGameEngine.check_collisions (e : DinoGameEngine) : DinoGameEngine :=
  if e.obstacles.any (fun o => e.dinosaur.collides_with o) then
    { e with game_over := true }
  else e

/-- `DinoGameEngine._update_game_progression`: score always advances, speed
advances while below the maximum and is propagated to every obstacle.
`self.speed += self.config.speed_increment` is a binary64 float addition,
so the stored value is the IEEE-rounded sum `fl (speed + increment)`. -/
def DinoGameEngine.update_game_progression (e : DinoGameEngine) : DinoGameEngine :=
  let e1 := { e with score := e.score + 1 }
  if e1.speed < PHYSICS.MAX_SPEED then
    let sp := fl (e1.speed + PHYSICS.SPEED_INCREMENT)
    { e1 with speed := sp, obstacles := e1.obstacles.map (fun o => { o with speed := sp }) }
  else e1

/-- `DinoGameEngine.update`: the full tick. -/
def DinoGameEngine.update (e : DinoGameEngine) (a : DinoAction) (g : Rng) :
    DinoGameEngine × Rng :=
  if e.game_over then (e, g)
  else
    let d0 := match a with
      | DinoAction.JUMP => e.dinosaur.jump
      | DinoAction.DUCK => e.dinosaur.duck
      | DinoAction.IDLE => e.dinosaur.stop_duck
    let e1 := { e with dinosaur := d0.update }
    let p := e1.update_obstacles g
    let q := p.1.update_clouds p.2
    (q.1.check_collisions.update_game_progression, q.2)

/-- `DinoGameEngine.get_obstacles_passed`. -/
def DinoGameEngine.get_obstacles_passed (e : DinoGameEngine) : ℕ :=
  (e.obstacles.filter (fun o => decide (o.x + (o.width : ℚ) < e.dinosaur.x))).length

/-- `DinoGameEngine.get_upcoming_obstacles`: obstacles ahead of the
dinosaur, stably sorted by x (Python `list.sort` is stable), first
`count`. -/
def DinoGameEngine.get_upcoming_obstacles (e : DinoGameEngine) (count : ℕ) :
    List Obstacle :=
  (List.insertionSort (fun a b => a.x ≤ b.x)
    (e.obstacles.filter (fun o => decide (e.dinosaur.x < o.x)))).take count

/-- The dictionary returned by `DinoGameEngine.get_state`
(`dinosaur` stands for `Dinosaur.get_state_dict`, which exposes exactly
the dataclass fields). -/
structure GameStateSnapshot where
  vector : List ℚ
  score : ℤ
  speed : ℚ
  game_over : Bool
  dinosaur : Dinosaur
  obstacles : ℕ
  upcoming_obstacles : ℕ
deriving DecidableEq

/-- The five features `get_state` appends for one upcoming obstacle (the
body of its first loop). -/
def DinoGameEngine.obstacle_features (e : DinoGameEngine) (o : Obstacle) : List ℚ :=
  [(o.x - e.dinosaur.x) / (e.width : ℚ), o.y / (e.height : ℚ),
   (o.width : ℚ) / 100, (o.height : ℚ) / 100,
   if o.kind = ObstacleKind.cactus then (1 : ℚ) else 0]

/-- `DinoGameEngine.get_state`. -/
def DinoGameEngine.get_state (e : DinoGameEngine) : GameStateSnapshot :=
  let upcoming := e.get_upcoming_obstacles 3
  let obstacle_data := upcoming.flatMap e.obstacle_features
  let padded := obstacle_data ++ List.replicate (15 - obstacle_data.length) 0
  let dino_state := [e.dinosaur.y / (e.height : ℚ), e.dinosaur.velocity_y / 20,
    if e.dinosaur.is_jumping then (1 : ℚ) else 0,
    if e.dinosaur.is_ducking then (1 : ℚ) else 0,
    e.speed / PHYSICS.MAX_SPEED]
  { vector := dino_state ++ padded, score := e.score, speed := e.speed,
    game_over := e.game_over, dinosaur := e.dinosaur,
    obstacles := e.obstacles.length, upcoming_obstacles := upcoming.length }

/-! ### Helper lemmas about single phases of the tick -/

lemma update_obstacles_score (e : DinoGameEngine) (g : Rng) :
    (e.update_obstacles g).1.score = e.score := by
  simp only [DinoGameEngine.update_obstacles]
  split <;> rfl

lemma update_obstacles_speed (e : DinoGameEngine) (g : Rng) :
    (e.update_obstacles g).1.speed = e.speed := by
  simp only [DinoGameEngine.update_obstacles]
  split <;> rfl

lemma update_obstacles_game_over (e : DinoGameEngine) (g : Rng) :
    (e.update_obstacles g).1.game_over = e.game_over := by
  simp only [DinoGameEngine.update_obstacles]
  split <;> rfl

lemma update_obstacles_dinosaur (e : DinoGameEngine) (g : Rng) :
    (e.update_obstacles g).1.dinosaur = e.dinosaur := by
  simp only [DinoGameEngine.update_obstacles]
  split <;> rfl

lemma update_clouds_score (e : DinoGameEngine) (g : Rng) :
    (e.update_clouds g).1.score = e.score := by
  simp only [DinoGameEngine.update_clouds]
  split <;> rfl

lemma update_clouds_speed (e : DinoGameEngine) (g : Rng) :
    (e.update_clouds g).1.speed = e.speed := by
  simp only [DinoGameEngine.update_clouds]
  split <;> rfl

lemma update_clouds_game_over (e : DinoGameEngine) (g : Rng) :
    (e.update_clouds g).1.game_over = e.game_over := by
  simp only [DinoGameEngine.update_clouds]
  split <;> rfl

lemma update_clouds_dinosaur (e : DinoGameEngine) (g : Rng) :
    (e.update_clouds g).1.dinosaur = e.dinosaur := by
  simp only [DinoGameEngine.update_clouds]
  split <;> rfl

lemma update_clouds_obstacles (e : DinoGameEngine) (g : Rng) :
    (e.update_clouds g).1.obstacles = e.obstacles := by
  simp only [DinoGameEngine.update_clouds]
  split <;> rfl

lemma check_collisions_score (e : DinoGameEngine) :
    e.check_collisions.score = e.score := by
  simp only [DinoGameEngine.check_collisions]
  split <;> rfl

lemma check_collisions_speed (e : DinoGameEngine) :
    e.check_collisions.speed = e.speed := by
  simp only [DinoGameEngine.check_collisions]
  split <;> rfl

lemma check_collisions_obstacles (e : DinoGameEngine) :
    e.check_collisions.obstacles = e.obstacles := by
  simp only [DinoGameEngine.check_collisions]
  split <;> rfl

lemma check_collisions_dinosaur (e : DinoGameEngine) :
    e.check_collisions.dinosaur = e.dinosaur := by
  simp only [DinoGameEngine.check_collisions]
  split <;> rfl

lemma check_collisions_game_over (e : DinoGameEngine) :
    e.check_collisions.game_over =
      (e.obstacles.any (fun o => e.dinosaur.collides_with o) || e.game_over) := by
  simp only [DinoGameEngine.check_collisions]
  split <;> simp_all

lemma update_game_progression_score (e : DinoGameEngine) :
    e.update_game_progression.score = e.score + 1 := by
  simp only [DinoGameEngine.update_game_progression]
  split <;> rfl

lemma update_game_progression_speed (e : DinoGameEngine) :
    e.update_game_progression.speed =
      (if e.speed < PHYSICS.MAX_SPEED then fl (e.speed + PHYSICS.SPEED_INCREMENT)
       else e.speed) := by
  by_cases h : e.speed < PHYSICS.MAX_SPEED <;>
    simp [DinoGameEngine.update_game_progression, h]

lemma update_game_progression_game_over (e : DinoGameEngine) :
    e.update_game_progression.game_over = e.game_over := by
  simp only [DinoGameEngine.update_game_progression]
  split <;> rfl

lemma update_game_progression_dinosaur (e : DinoGameEngine) :
    e.update_game_progression.dinosaur = e.dinosaur := by
  simp only [DinoGameEngine.update_game_progression]
  split <;> rfl

/-- On a non-terminated tick, the score field of the result of `update`. -/
lemma update_score (e : DinoGameEngine) (a : DinoAction) (g : Rng)
    (h : e.game_over = false) : (e.update a g).1.score = e.score + 1 := by
  unfold DinoGameEngine.update
  rw [h]
  simp only [Bool.false_eq_true, if_false, update_game_progression_score,
    check_collisions_score, update_clouds_score, update_obstacles_score]

/-- On a non-terminated tick, the speed field of the result of `update`. -/
lemma update_speed (e : DinoGameEngine) (a : DinoAction) (g : Rng)
    (h : e.game_over = false) :
    (e.update a g).1.speed =
      (if e.speed < PHYSICS.MAX_SPEED then fl (e.speed + PHYSICS.SPEED_INCREMENT)
       else e.speed) := by
  unfold DinoGameEngine.update
  rw [h]
  simp only [Bool.false_eq_true, if_false, update_game_progression_speed,
    check_collisions_speed, update_clouds_speed, update_obstacles_speed]

/-! ### Concrete states used as witnesses and counterexamples -/

/-- A plain freshly-initialized engine state (all draws read off a zero
stream), used to instantiate hypotheses of proved theorems. -/
def engineW : DinoGameEngine :=
  { width := 600, height := 300, ground_y := 200, score := 0, game_over := false,
    speed := 6, dinosaur := Dinosaur.init 50 200, obstacles := [], clouds := [],
    obstacle_timer := 0, next_obstacle_distance := 120, cloud_timer := 0,
    cloud_spawn_rate := 200 }

/-- The zero random stream. -/
def rngW : Rng := ⟨fun _ => 0, 0⟩

/-- A terminated engine state. -/
def engineT : DinoGameEngine := { engineW with game_over := true, score := 37 }

/-- `update` returns immediately when the terminal flag is set. -/
lemma update_of_terminated (e : DinoGameEngine) (a : DinoAction) (g : Rng)
    (h : e.game_over = true) : e.update a g = (e, g) := by
  unfold DinoGameEngine.update
  rw [h]
  simp

/-! ### C5: update after termination is a no-op -/

/-- C5: in every engine state with the terminal flag set, `update` with any
action returns the entire engine state (and the global generator)
unchanged: score, speed, the runner, every obstacle and cloud, both spawn
timers and both spawn thresholds are exactly as before. -/
theorem C5_update_after_termination_noop (e : DinoGameEngine) (a : DinoAction)
    (g : Rng) (h : e.game_over = true) : e.update a g = (e, g) :=
  update_of_terminated e a g h

/-- Witness for C5 at a concrete terminated engine state. -/
theorem C5_update_after_termination_noop_witness :
    engineT.game_over = true ∧
    DinoGameEngine.update engineT DinoAction.JUMP rngW = (engineT, rngW) :=
  ⟨rfl, C5_update_after_termination_noop engineT DinoAction.JUMP rngW rfl⟩

/-! ### C10: snapshot shape invariant -/

lemma length_flatMap_obstacle_features (e : DinoGameEngine) (l : List Obstacle) :
    (l.flatMap e.obstacle_features).length = 5 * l.length := by
  induction l with
  | nil => simp
  | cons a t ih =>
    simp only [List.flatMap_cons, List.length_append, ih,
      DinoGameEngine.obstacle_features, List.length_cons, List.length_nil]
    ring

lemma length_upcoming_le (e : DinoGameEngine) : (e.get_upcoming_obstacles 3).length ≤ 3 := by
  unfold DinoGameEngine.get_upcoming_obstacles
  rw [List.length_take]
  exact min_le_left 3 _

/-- C10: in every engine state whatsoever (in particular right after
`reset`, when the obstacle collection is empty), the snapshot's feature
vector has exactly 20 entries, and with no obstacles the 15 obstacle slots
are all zero.  `get_state` is a pure function of the state in this model,
matching the source, which only reads engine fields. -/
theorem C10_snapshot_vector_length (e : DinoGameEngine) :
    (e.get_state).vector.length = 20 ∧
    (e.obstacles = [] → (e.get_state).vector.drop 5 = List.replicate 15 0) := by
  constructor
  · have h3 := length_upcoming_le e
    have h5 := length_flatMap_obstacle_features e (e.get_upcoming_obstacles 3)
    simp only [DinoGameEngine.get_state, List.length_append, List.length_cons,
      List.length_nil, List.length_replicate, h5]
    omega
  · intro h
    unfold DinoGameEngine.get_state DinoGameEngine.get_upcoming_obstacles
    rw [h]
    rfl

/-- Witness for C10 discharging the empty-obstacle-collection implication
at a concrete freshly-initialized state. -/
theorem C10_snapshot_vector_length_witness :
    (engineW.get_state).vector.length = 20 ∧
    (engineW.get_state).vector.drop 5 = List.replicate 15 0 :=
  ⟨(C10_snapshot_vector_length engineW).1,
   (C10_snapshot_vector_length engineW).2 rfl⟩

/-! ### C8: the collision predicate versus strict real-valued overlap -/

/-- Modelled from the spec: "given the runner's bounding box and an
obstacle's bounding box, returns true iff the two axis-aligned rectangles
overlap (standard interval-overlap test on both axes; touching edges do
not count as overlap — strict inequality)", read on the real-valued
(rational) coordinates of the objects. -/
def specStrictOverlap (d : Dinosaur) (o : Obstacle) : Prop :=
  d.x < o.x + (o.width : ℚ) ∧ o.x < d.x + (d.width : ℚ) ∧
  d.y < o.y + (o.height : ℚ) ∧ o.y < d.y + (d.height : ℚ)

instance (d : Dinosaur) (o : Obstacle) : Decidable (specStrictOverlap d o) := by
  unfold specStrictOverlap
  exact inferInstance

/-- The dinosaur with its position truncated toward zero, as
`GameObject.get_rect` does before the overlap test. -/
def truncDinosaur (d : Dinosaur) : Dinosaur :=
  { d with x := (pyInt d.x : ℚ), y := (pyInt d.y : ℚ) }

/-- An obstacle with its position truncated toward zero, as
`GameObject.get_rect` does before the overlap test. -/
def truncObstacle (o : Obstacle) : Obstacle :=
  { o with x := (pyInt o.x : ℚ), y := (pyInt o.y : ℚ) }

def dinoC8 : Dinosaur := ⟨9/10, 100, 44, 47, 0, false, false⟩

def obsC8 : Obstacle := ⟨224/5, 100, 17, 35, 6, ObstacleKind.cactus, 0⟩

/-- C8 counterexample: boxes at x = 0.9 and x = 44.8 overlap strictly in
real coordinates (0.9 + 44 = 44.9 > 44.8), yet `collides_with` reports no
collision, because both positions are truncated to integers first
(0 + 44 = 44 is not greater than 44). -/
theorem C8_collision_counterexample :
    specStrictOverlap dinoC8 obsC8 ∧ dinoC8.collides_with obsC8 = false := by
  with_unfolding_all decide

/-- C8 amended: for boxes of positive width and height, `collides_with`
returns true iff the boxes with integer-truncated positions overlap
strictly on both axes; in particular on integer-valued coordinates it is
exactly the spec's strict overlap test. -/
theorem C8_collision_truncated_strict_overlap (d : Dinosaur) (o : Obstacle)
    (hdw : 0 < d.width) (hdh : 0 < d.height)
    (how : 0 < o.width) (hoh : 0 < o.height) :
    (d.collides_with o = true ↔ specStrictOverlap (truncDinosaur d) (truncObstacle o)) ∧
    (d.x = (pyInt d.x : ℚ) → d.y = (pyInt d.y : ℚ) →
     o.x = (pyInt o.x : ℚ) → o.y = (pyInt o.y : ℚ) →
     (d.collides_with o = true ↔ specStrictOverlap d o)) := by
  have hminl : ∀ (a w : ℤ), 0 < w → min a (a + w) = a :=
    fun a w hw => min_eq_left (by omega)
  have hmaxr : ∀ (a w : ℤ), 0 < w → max a (a + w) = a + w :=
    fun a w hw => max_eq_right (by omega)
  have hmain : d.collides_with o = true ↔
      specStrictOverlap (truncDinosaur d) (truncObstacle o) := by
    unfold Dinosaur.collides_with colliderect Dinosaur.get_rect Obstacle.get_rect
      specStrictOverlap truncDinosaur truncObstacle
    dsimp only
    rw [hminl _ _ hdw, hminl _ _ how, hminl _ _ hdh, hminl _ _ hoh,
        hmaxr _ _ hdw, hmaxr _ _ how, hmaxr _ _ hdh, hmaxr _ _ hoh]
    simp only [Bool.and_eq_true, decide_eq_true_eq]
    constructor
    · rintro ⟨⟨⟨⟨⟨⟨⟨-, -⟩, -⟩, -⟩, h1⟩, h2⟩, h3⟩, h4⟩
      refine ⟨?_, ?_, ?_, ?_⟩
      · exact_mod_cast h1
      · exact_mod_cast h2
      · exact_mod_cast h3
      · exact_mod_cast h4
    · rintro ⟨h1, h2, h3, h4⟩
      refine ⟨⟨⟨⟨⟨⟨⟨hdw.ne', hdh.ne'⟩, how.ne'⟩, hoh.ne'⟩, ?_⟩, ?_⟩, ?_⟩, ?_⟩
      · exact_mod_cast h1
      · exact_mod_cast h2
      · exact_mod_cast h3
      · exact_mod_cast h4
  refine ⟨hmain, fun hx hy hox hoy => ?_⟩
  have hd : truncDinosaur d = d := by
    unfold truncDinosaur
    rw [← hx, ← hy]
  have ho : truncObstacle o = o := by
    unfold truncObstacle
    rw [← hox, ← hoy]
  rw [hd, ho] at hmain
  exact hmain

/-- Witness for C8 at integer-valued coordinates: the standing runner
against an overlapping cactus box. -/
theorem C8_collision_truncated_strict_overlap_witness :
    (0 : ℤ) < 44 ∧ (0 : ℤ) < 47 ∧ (0 : ℤ) < 17 ∧ (0 : ℤ) < 35 ∧
    ((⟨50, 200, 44, 47, 0, false, true⟩ : Dinosaur).collides_with
        (⟨60, 210, 17, 35, 6, ObstacleKind.cactus, 0⟩ : Obstacle) = true ↔
      specStrictOverlap (⟨50, 200, 44, 47, 0, false, true⟩ : Dinosaur)
        (⟨60, 210, 17, 35, 6, ObstacleKind.cactus, 0⟩ : Obstacle)) :=
  ⟨by decide, by decide, by decide, by decide,
   (C8_collision_truncated_strict_overlap
      (⟨50, 200, 44, 47, 0, false, true⟩ : Dinosaur)
      (⟨60, 210, 17, 35, 6, ObstacleKind.cactus, 0⟩ : Obstacle)
      (by decide) (by decide) (by decide) (by decide)).2
     (by with_unfolding_all rfl) (by with_unfolding_all rfl)
     (by with_unfolding_all rfl) (by with_unfolding_all rfl)⟩

/-! ### C9: crouch/stand round trip -/

def dinoDuckC9 : Dinosaur := ⟨50, 221, 59, 26, 0, false, true⟩

/-- C9 counterexample: a grounded runner that is already crouching is a
grounded runner state, but `duck()` then `stop_duck()` leaves it in the
standing pose: vertical position, width and height all differ from their
pre-call values. -/
theorem C9_crouch_roundtrip_counterexample :
    dinoDuckC9.is_jumping = false ∧
    ((dinoDuckC9.duck).stop_duck).y ≠ dinoDuckC9.y ∧
    ((dinoDuckC9.duck).stop_duck).width ≠ dinoDuckC9.width ∧
    ((dinoDuckC9.duck).stop_duck).height ≠ dinoDuckC9.height := by
  with_unfolding_all decide

/-- C9 amended: for a grounded runner in the standing pose (not airborne,
not already crouching, normal bounding box), `duck()` switches to the
crouch box keeping the bottom edge fixed, and `stop_duck()` restores the
entire pre-crouch state exactly (in the rational model the float
arithmetic of the source is exact), again keeping the bottom edge fixed. -/
theorem C9_crouch_roundtrip (d : Dinosaur) (hj : d.is_jumping = false)
    (hd : d.is_ducking = false) (hw : d.width = PHYSICS.DINO_NORMAL_WIDTH)
    (hh : d.height = PHYSICS.DINO_NORMAL_HEIGHT) :
    (d.duck).stop_duck = d ∧
    (d.duck).width = PHYSICS.DINO_DUCK_WIDTH ∧
    (d.duck).height = PHYSICS.DINO_DUCK_HEIGHT ∧
    (d.duck).y + ((d.duck).height : ℚ) = d.y + (d.height : ℚ) ∧
    ((d.duck).stop_duck).y + (((d.duck).stop_duck).height : ℚ) =
      (d.duck).y + ((d.duck).height : ℚ) := by
  obtain ⟨x, y, w, h, vy, j, du⟩ := d
  simp only at hj hd hw hh
  subst hj
  subst hd
  subst hw
  subst hh
  simp only [Dinosaur.duck, Dinosaur.stop_duck, Dinosaur.update_dimensions,
    PHYSICS.DINO_NORMAL_WIDTH, PHYSICS.DINO_NORMAL_HEIGHT,
    PHYSICS.DINO_DUCK_WIDTH, PHYSICS.DINO_DUCK_HEIGHT]
  norm_num [Dinosaur.mk.injEq]
  constructor <;> ring

/-- Witness for C9 at the standard standing runner pose. -/
theorem C9_crouch_roundtrip_witness :
    ((⟨50, 200, 44, 47, 0, false, false⟩ : Dinosaur).duck).stop_duck =
      (⟨50, 200, 44, 47, 0, false, false⟩ : Dinosaur) ∧
    ((⟨50, 200, 44, 47, 0, false, false⟩ : Dinosaur).duck).y +
        ((((⟨50, 200, 44, 47, 0, false, false⟩ : Dinosaur).duck).height : ℤ) : ℚ) =
      (200 : ℚ) + ((47 : ℤ) : ℚ) :=
  ⟨(C9_crouch_roundtrip ⟨50, 200, 44, 47, 0, false, false⟩ rfl rfl rfl rfl).1,
   (C9_crouch_roundtrip ⟨50, 200, 44, 47, 0, false, false⟩ rfl rfl rfl rfl).2.2.2.1⟩

/-! ### C6: what reset reinitializes -/

def engine777 : DinoGameEngine := { engineW with cloud_spawn_rate := 777 }

/-- C6 counterexample: `reset` leaves the decoration spawn threshold
untouched — starting from a state whose cloud spawn rate is 777, after
`reset` it is still 777, outside the configured [200, 400] range it would
lie in had it been redrawn. -/
theorem C6_reset_counterexample :
    (engine777.reset rngW).1.cloud_spawn_rate = 777 ∧
    ¬(PHYSICS.CLOUD_SPAWN_RATE_MIN ≤ (engine777.reset rngW).1.cloud_spawn_rate ∧
      (engine777.reset rngW).1.cloud_spawn_rate ≤ PHYSICS.CLOUD_SPAWN_RATE_MAX) := by
  with_unfolding_all decide

/-- C6 amended: `reset` (callable in any state) returns to Running with
score 0, base speed, the anchored ground pose, empty obstacle and cloud
collections, both timers zeroed, and redraws the obstacle gap threshold
from the configured range — but the decoration (cloud) spawn threshold is
not redrawn: it keeps its previous value. -/
theorem C6_reset_reinitializes (e : DinoGameEngine) (g : Rng) :
    (e.reset g).1.score = 0 ∧
    (e.reset g).1.game_over = false ∧
    (e.reset g).1.speed = PHYSICS.BASE_SPEED ∧
    (e.reset g).1.dinosaur = Dinosaur.init PHYSICS.DINO_X_POSITION e.ground_y ∧
    (e.reset g).1.obstacles = [] ∧
    (e.reset g).1.clouds = [] ∧
    (e.reset g).1.obstacle_timer = 0 ∧
    (e.reset g).1.cloud_timer = 0 ∧
    PHYSICS.MIN_OBSTACLE_GAP ≤ (e.reset g).1.next_obstacle_distance ∧
    (e.reset g).1.next_obstacle_distance ≤ PHYSICS.MAX_OBSTACLE_GAP ∧
    (e.reset g).1.cloud_spawn_rate = e.cloud_spawn_rate := by
  have heq : (e.reset g).1.next_obstacle_distance = 120 + (g.f g.k : ℤ) % 81 := rfl
  refine ⟨rfl, rfl, rfl, rfl, rfl, rfl, rfl, rfl, ?_, ?_, rfl⟩
  · show (120 : ℤ) ≤ (e.reset g).1.next_obstacle_distance
    rw [heq]
    omega
  · show (e.reset g).1.next_obstacle_distance ≤ (200 : ℤ)
    rw [heq]
    omega

/-! ### C1: the terminating tick still progresses score and speed -/

def birdC1 : Obstacle := ⟨50, 150, 46, 40, 6, ObstacleKind.bird, 0⟩

def engineC1 : DinoGameEngine :=
  { engineW with
      score := 7
      dinosaur := ⟨50, 150, 44, 47, 0, true, false⟩
      obstacles := [birdC1]
      next_obstacle_distance := 200
      cloud_spawn_rate := 300 }

set_option maxRecDepth 100000 in
unseal Rat.add Rat.mul Rat.inv Rat.sub Rat.ofScientific in
/-- C1 counterexample: a Running state in which the tick's collision check
fires (an airborne runner meets a bird).  The engine does transition to
Terminated, but the tick does not stop there: the score and the speed
after this `update` differ from their values before it, because
`_update_game_progression` runs unconditionally after `_check_collisions`. -/
theorem C1_terminating_tick_counterexample :
    engineC1.game_over = false ∧
    (engineC1.update DinoAction.IDLE rngW).1.game_over = true ∧
    (engineC1.update DinoAction.IDLE rngW).1.score ≠ engineC1.score ∧
    (engineC1.update DinoAction.IDLE rngW).1.speed ≠ engineC1.speed := by
  decide

/-- C1 amended: on a tick whose collision check fires, the engine
transitions to Terminated but still progresses: the score increments by 1
and, when below the configured maximum, the speed increases to the
IEEE-rounded sum of itself and the configured increment (propagation to
obstacles included), exactly as on a surviving tick. -/
theorem C1_terminating_tick_progression (e : DinoGameEngine) (a : DinoAction)
    (g : Rng) (h : e.game_over = false)
    (_hc : (e.update a g).1.game_over = true) :
    (e.update a g).1.score = e.score + 1 ∧
    (e.update a g).1.speed =
      (if e.speed < PHYSICS.MAX_SPEED then fl (e.speed + PHYSICS.SPEED_INCREMENT)
       else e.speed) :=
  ⟨update_score e a g h, update_speed e a g h⟩

/-- Witness for C1 on the concrete colliding state. -/
theorem C1_terminating_tick_progression_witness :
    engineC1.game_over = false ∧
    (engineC1.update DinoAction.IDLE rngW).1.game_over = true ∧
    (engineC1.update DinoAction.IDLE rngW).1.score = engineC1.score + 1 ∧
    (engineC1.update DinoAction.IDLE rngW).1.speed =
      (if engineC1.speed < PHYSICS.MAX_SPEED then
        fl (engineC1.speed + PHYSICS.SPEED_INCREMENT)
       else engineC1.speed) :=
  ⟨rfl, by with_unfolding_all decide,
   (C1_terminating_tick_progression engineC1 DinoAction.IDLE rngW rfl
      (by with_unfolding_all decide)).1,
   (C1_terminating_tick_progression engineC1 DinoAction.IDLE rngW rfl
      (by with_unfolding_all decide)).2⟩

/-! ### Elements surviving the advance-and-cull loop -/

lemma mem_of_mem_set_erase {α : Type} [DecidableEq α] :
    ∀ (l : List α) (i : ℕ) (x b : α), i < l.length →
      b ∈ (l.set i x).erase x → b ∈ l := by
  intro l
  induction l with
  | nil =>
    intro i x b hi
    simp at hi
  | cons a t ih =>
    intro i x b hi hb
    cases i with
    | zero =>
      rw [List.set_cons_zero, List.erase_cons_head] at hb
      exact List.mem_cons_of_mem a hb
    | succ n =>
      rw [List.set_cons_succ] at hb
      by_cases hax : a = x
      · subst hax
        rw [List.erase_cons_head] at hb
        rcases List.mem_or_eq_of_mem_set hb with h | h
        · exact List.mem_cons_of_mem _ h
        · subst h
          exact List.mem_cons_self _ _
      · rw [List.erase_cons_tail (by simpa using hax)] at hb
        rcases List.mem_cons.mp hb with h | h
        · subst h
          exact List.mem_cons_self _ _
        · have hn : n < t.length := by
            simpa [Nat.succ_lt_succ_iff] using hi
          exact List.mem_cons_of_mem _ (ih n x b hn h)

/-- Any property of the elements survives the Python cull loop, provided it
survives one advance that does not put the element off screen.  Crucially,
an element that is advanced and found off screen is erased again (some
equal copy of it is), so the loop never has to establish the property for
an advanced off-screen element. -/
lemma cullAux_forall {α : Type} [DecidableEq α] (step : α → α) (off : α → Bool)
    (P : α → Prop) (hstep : ∀ a, P a → off (step a) = false → P (step a)) :
    ∀ (fuel : ℕ) (l : List α) (i : ℕ), (∀ a ∈ l, P a) →
      ∀ b ∈ cullAux step off fuel l i, P b := by
  intro fuel
  induction fuel with
  | zero =>
    intro l i h b hb
    exact h b (by simpa [cullAux] using hb)
  | succ n ih =>
    intro l i h b hb
    rw [cullAux] at hb
    split at hb
    case isTrue hlt =>
      by_cases hoff : off (step (l.get ⟨i, hlt⟩)) = true
      · rw [if_pos hoff] at hb
        refine ih _ _ ?_ b hb
        intro c hc
        exact h c (mem_of_mem_set_erase l i _ c hlt hc)
      · rw [if_neg hoff] at hb
        refine ih _ _ ?_ b hb
        intro c hc
        rcases List.mem_or_eq_of_mem_set hc with h' | h'
        · exact h c h'
        · subst h'
          exact hstep _ (h _ (List.get_mem l i hlt)) (by simpa using hoff)
    case isFalse hlt =>
      exact h b hb

lemma cullList_forall {α : Type} [DecidableEq α] (step : α → α) (off : α → Bool)
    (P : α → Prop) (hstep : ∀ a, P a → off (step a) = false → P (step a))
    (l : List α) (h : ∀ a ∈ l, P a) : ∀ b ∈ cullList step off l, P b :=
  cullAux_forall step off P hstep l.length l 0 h

/-! ### Invariants of reachable engine states -/

/-- Shape invariant of the runner: while airborne the crouch flag is off
and the box is the normal one; while grounded the pose is exactly one of
the two anchored ground poses. -/
def DinoInv (d : Dinosaur) : Prop :=
  (d.is_jumping = true →
    d.is_ducking = false ∧ d.width = 44 ∧ d.height = 47) ∧
  (d.is_jumping = false →
    (d.is_ducking = false ∧ d.y = 200 ∧ d.width = 44 ∧ d.height = 47) ∨
    (d.is_ducking = true ∧ d.y = 221 ∧ d.width = 59 ∧ d.height = 26))

/-- Shape invariant of an active obstacle: its trailing edge has not
passed the left boundary, its width is positive, and it is a cactus
resting on the ground line or a bird at one of the three flight levels. -/
def ObsInv (o : Obstacle) : Prop :=
  0 ≤ o.x + (o.width : ℚ) ∧ 0 < o.width ∧
  ((o.kind = ObstacleKind.cactus ∧ o.y = 165 ∧ o.height = 35) ∨
   (o.kind = ObstacleKind.bird ∧ (o.y = 150 ∨ o.y = 100 ∨ o.y = 75) ∧ o.height = 40))

/-- Speed bounds: the speed starts at the base 6 and only grows; because
the guard admits one more increment whenever the stored value is still
below the maximum, the speed can end up above the maximum by at most one
increment plus one rounding error (the rounding grain below 16 is
`2^-49`, so `|fl x - x| ≤ 2^-50` there). -/
def SpeedInv (q : ℚ) : Prop :=
  6 ≤ q ∧ q ≤ PHYSICS.MAX_SPEED + PHYSICS.SPEED_INCREMENT + 1 / 1125899906842624

/-- Combined invariant of an engine state. -/
def EngineInv (e : DinoGameEngine) : Prop :=
  0 ≤ e.width ∧ DinoInv e.dinosaur ∧ SpeedInv e.speed ∧
  ∀ o ∈ e.obstacles, ObsInv o

/-- Engine states reachable by the public lifecycle: construction (with a
nonnegatively-sized playfield), reset, and ticks, under arbitrary states
of the global generator. -/
inductive Reachable : DinoGameEngine → Prop where
  | init : ∀ (w h : Option ℤ) (g : Rng),
      0 ≤ resolveDim w PHYSICS.GAME_WIDTH →
      Reachable (DinoGameEngine.init w h g).1
  | reset : ∀ (e : DinoGameEngine) (g : Rng), Reachable e →
      Reachable (e.reset g).1
  | step : ∀ (e : DinoGameEngine) (a : DinoAction) (g : Rng), Reachable e →
      Reachable (e.update a g).1

/-! ### Freshly spawned obstacles satisfy the obstacle invariant -/

lemma cactus_init_obsinv (x : ℚ) (variant : ℤ) (sp : Option ℚ) (hx : 0 ≤ x) :
    ObsInv (Cactus.init x variant sp) := by
  unfold Cactus.init ObsInv
  have hlen : (PHYSICS.CACTUS_VARIANTS.length : ℤ) = 3 := rfl
  rw [hlen]
  have hv : variant % 3 = 0 ∨ variant % 3 = 1 ∨ variant % 3 = 2 := by omega
  rcases hv with h | h | h <;> rw [h] <;> dsimp only
  · have h1 : PHYSICS.CACTUS_VARIANTS.getD (Int.toNat 0) (0, 0) = (17, 35) := by decide
    rw [h1]
    refine ⟨by push_cast; linarith, by decide,
      Or.inl ⟨rfl, by with_unfolding_all decide, rfl⟩⟩
  · have h1 : PHYSICS.CACTUS_VARIANTS.getD (Int.toNat 1) (0, 0) = (34, 35) := by decide
    rw [h1]
    refine ⟨by push_cast; linarith, by decide,
      Or.inl ⟨rfl, by with_unfolding_all decide, rfl⟩⟩
  · have h1 : PHYSICS.CACTUS_VARIANTS.getD (Int.toNat 2) (0, 0) = (51, 35) := by decide
    rw [h1]
    refine ⟨by push_cast; linarith, by decide,
      Or.inl ⟨rfl, by with_unfolding_all decide, rfl⟩⟩

lemma bird_init_obsinv (x : ℚ) (flight_level : ℤ) (sp : Option ℚ) (hx : 0 ≤ x) :
    ObsInv (Bird.init x flight_level sp) := by
  unfold Bird.init ObsInv
  have hlen : (PHYSICS.BIRD_FLIGHT_HEIGHTS.length : ℤ) = 3 := rfl
  rw [hlen]
  have hv : flight_level % 3 = 0 ∨ flight_level % 3 = 1 ∨ flight_level % 3 = 2 := by omega
  rcases hv with h | h | h <;> rw [h] <;> dsimp only
  · have h1 : PHYSICS.BIRD_FLIGHT_HEIGHTS.getD (Int.toNat 0) 0 = 150 := by decide
    rw [h1]
    refine ⟨by push_cast [PHYSICS.BIRD_WIDTH]; linarith, by decide,
      Or.inr ⟨rfl, Or.inl rfl, rfl⟩⟩
  · have h1 : PHYSICS.BIRD_FLIGHT_HEIGHTS.getD (Int.toNat 1) 0 = 100 := by decide
    rw [h1]
    refine ⟨by push_cast [PHYSICS.BIRD_WIDTH]; linarith, by decide,
      Or.inr ⟨rfl, Or.inr (Or.inl rfl), rfl⟩⟩
  · have h1 : PHYSICS.BIRD_FLIGHT_HEIGHTS.getD (Int.toNat 2) 0 = 75 := by decide
    rw [h1]
    refine ⟨by push_cast [PHYSICS.BIRD_WIDTH]; linarith, by decide,
      Or.inr ⟨rfl, Or.inr (Or.inr rfl), rfl⟩⟩

/-! ### More single-phase projection lemmas -/

lemma update_obstacles_width (e : DinoGameEngine) (g : Rng) :
    (e.update_obstacles g).1.width = e.width := by
  simp only [DinoGameEngine.update_obstacles]
  split <;> rfl

lemma update_clouds_width (e : DinoGameEngine) (g : Rng) :
    (e.update_clouds g).1.width = e.width := by
  simp only [DinoGameEngine.update_clouds]
  split <;> rfl

lemma check_collisions_width (e : DinoGameEngine) :
    e.check_collisions.width = e.width := by
  simp only [DinoGameEngine.check_collisions]
  split <;> rfl

lemma update_game_progression_width (e : DinoGameEngine) :
    e.update_game_progression.width = e.width := by
  simp only [DinoGameEngine.update_game_progression]
  split <;> rfl

lemma update_game_progression_obstacles (e : DinoGameEngine) :
    e.update_game_progression.obstacles =
      (if e.speed < PHYSICS.MAX_SPEED then
        e.obstacles.map
          (fun o => { o with speed := fl (e.speed + PHYSICS.SPEED_INCREMENT) })
       else e.obstacles) := by
  by_cases h : e.speed < PHYSICS.MAX_SPEED <;>
    simp [DinoGameEngine.update_game_progression, h]

lemma update_width (e : DinoGameEngine) (a : DinoAction) (g : Rng) :
    (e.update a g).1.width = e.width := by
  by_cases hov : e.game_over = true
  · rw [update_of_terminated e a g hov]
  · have hovf : e.game_over = false := by simpa using hov
    unfold DinoGameEngine.update
    rw [hovf]
    simp only [Bool.false_eq_true, if_false, update_game_progression_width,
      check_collisions_width, update_clouds_width, update_obstacles_width]

lemma update_dinosaur_eq (e : DinoGameEngine) (a : DinoAction) (g : Rng)
    (h : e.game_over = false) :
    (e.update a g).1.dinosaur =
      (match a with
        | DinoAction.JUMP => e.dinosaur.jump
        | DinoAction.DUCK => e.dinosaur.duck
        | DinoAction.IDLE => e.dinosaur.stop_duck).update := by
  unfold DinoGameEngine.update
  rw [h]
  simp only [Bool.false_eq_true, if_false, update_game_progression_dinosaur,
    check_collisions_dinosaur, update_clouds_dinosaur, update_obstacles_dinosaur]

/-! ### Obstacle invariant preservation through a tick -/

lemma obsinv_step (a : Obstacle) (ha : ObsInv a)
    (hoffa : Obstacle.is_off_screen (Obstacle.update a) = false) :
    ObsInv (Obstacle.update a) := by
  obtain ⟨hxw, hwpos, hshape⟩ := ha
  simp only [Obstacle.is_off_screen, Obstacle.update, decide_eq_false_iff_not,
    not_lt] at hoffa
  exact ⟨hoffa, hwpos, hshape⟩

lemma update_obstacles_obsinv (e : DinoGameEngine) (g : Rng) (hw : 0 ≤ e.width)
    (hobs : ∀ o ∈ e.obstacles, ObsInv o) :
    ∀ o ∈ (e.update_obstacles g).1.obstacles, ObsInv o := by
  have hcull : ∀ o ∈ cullList Obstacle.update Obstacle.is_off_screen e.obstacles,
      ObsInv o :=
    cullList_forall _ _ _ (fun a ha hoffa => obsinv_step a ha hoffa) _ hobs
  have hwq : (0 : ℚ) ≤ (e.width : ℚ) := by exact_mod_cast hw
  unfold DinoGameEngine.update_obstacles
  dsimp only
  split
  · unfold DinoGameEngine.spawn_obstacle
    dsimp only
    split
    · intro o ho
      rcases List.mem_append.mp ho with hmem | hmem
      · exact hcull o hmem
      · rw [List.mem_singleton.mp hmem]
        exact cactus_init_obsinv _ _ _ hwq
    · intro o ho
      rcases List.mem_append.mp ho with hmem | hmem
      · exact hcull o hmem
      · rw [List.mem_singleton.mp hmem]
        exact bird_init_obsinv _ _ _ hwq
  · exact fun o ho => hcull o ho

lemma obsinv_map_speed (l : List Obstacle) (sp : ℚ) (h : ∀ o ∈ l, ObsInv o) :
    ∀ o ∈ l.map (fun o => { o with speed := sp }), ObsInv o := by
  intro o ho
  rcases List.mem_map.mp ho with ⟨b, hb, rfl⟩
  obtain ⟨h1, h2, h3⟩ := h b hb
  exact ⟨h1, h2, h3⟩

lemma update_obsinv (e : DinoGameEngine) (a : DinoAction) (g : Rng)
    (hw : 0 ≤ e.width) (hobs : ∀ o ∈ e.obstacles, ObsInv o) :
    ∀ o ∈ (e.update a g).1.obstacles, ObsInv o := by
  by_cases hov : e.game_over = true
  · rw [update_of_terminated e a g hov]
    exact hobs
  · have hovf : e.game_over = false := by simpa using hov
    unfold DinoGameEngine.update
    rw [hovf]
    simp only [Bool.false_eq_true, if_false]
    rw [update_game_progression_obstacles, check_collisions_obstacles,
      update_clouds_obstacles]
    split
    · exact obsinv_map_speed _ _ (update_obstacles_obsinv _ g hw hobs)
    · exact update_obstacles_obsinv _ g hw hobs

/-! ### Runner invariant preservation -/

lemma dinoInv_jump (d : Dinosaur) (hI : DinoInv d) : DinoInv d.jump := by
  obtain ⟨hair, hgnd⟩ := hI
  by_cases hj : d.is_jumping = true
  · unfold Dinosaur.jump
    rw [hj]
    exact ⟨hair, hgnd⟩
  · have hjf : d.is_jumping = false := by simpa using hj
    obtain ⟨x, y, w, hgt, vy, j, du⟩ := d
    simp only at hjf
    subst hjf
    rcases hgnd rfl with ⟨hdu, hy, hw, hh⟩ | ⟨hdu, hy, hw, hh⟩ <;>
      simp only at hdu hy hw hh <;> subst hdu <;> subst hy <;> subst hw <;> subst hh <;>
      unfold Dinosaur.jump Dinosaur.update_dimensions DinoInv <;>
      norm_num [DinoInv, PHYSICS.DINO_NORMAL_WIDTH, PHYSICS.DINO_NORMAL_HEIGHT, PHYSICS.DINO_DUCK_WIDTH, PHYSICS.DINO_DUCK_HEIGHT, PHYSICS.GROUND_Y, PHYSICS.GRAVITY, PHYSICS.JUMP_VELOCITY]

lemma dinoInv_duck (d : Dinosaur) (hI : DinoInv d) : DinoInv d.duck := by
  obtain ⟨hair, hgnd⟩ := hI
  by_cases hj : d.is_jumping = true
  · unfold Dinosaur.duck
    rw [hj]
    exact ⟨hair, hgnd⟩
  · have hjf : d.is_jumping = false := by simpa using hj
    obtain ⟨x, y, w, hgt, vy, j, du⟩ := d
    simp only at hjf
    subst hjf
    rcases hgnd rfl with ⟨hdu, hy, hw, hh⟩ | ⟨hdu, hy, hw, hh⟩ <;>
      simp only at hdu hy hw hh <;> subst hdu <;> subst hy <;> subst hw <;> subst hh <;>
      unfold Dinosaur.duck Dinosaur.update_dimensions DinoInv <;>
      norm_num [DinoInv, PHYSICS.DINO_NORMAL_WIDTH, PHYSICS.DINO_NORMAL_HEIGHT, PHYSICS.DINO_DUCK_WIDTH, PHYSICS.DINO_DUCK_HEIGHT, PHYSICS.GROUND_Y, PHYSICS.GRAVITY, PHYSICS.JUMP_VELOCITY]

lemma dinoInv_stop_duck (d : Dinosaur) (hI : DinoInv d) : DinoInv d.stop_duck := by
  obtain ⟨hair, hgnd⟩ := hI
  by_cases hdu : d.is_ducking = true
  · have hjf : d.is_jumping = false := by
      by_cases hj : d.is_jumping = true
      · exact absurd (hair hj).1 (by simp [hdu])
      · simpa using hj
    obtain ⟨x, y, w, hgt, vy, j, du⟩ := d
    simp only at hjf hdu
    subst hjf
    subst hdu
    rcases hgnd rfl with ⟨hdu2, hy, hw, hh⟩ | ⟨hdu2, hy, hw, hh⟩
    · exact absurd hdu2 (by simp)
    · simp only at hy hw hh
      subst hy
      subst hw
      subst hh
      unfold Dinosaur.stop_duck Dinosaur.update_dimensions DinoInv
      norm_num [DinoInv, PHYSICS.DINO_NORMAL_WIDTH, PHYSICS.DINO_NORMAL_HEIGHT, PHYSICS.DINO_DUCK_WIDTH, PHYSICS.DINO_DUCK_HEIGHT, PHYSICS.GROUND_Y, PHYSICS.GRAVITY, PHYSICS.JUMP_VELOCITY]
  · have hduf : d.is_ducking = false := by simpa using hdu
    unfold Dinosaur.stop_duck
    rw [hduf]
    exact ⟨hair, hgnd⟩

lemma dinoInv_physics (d : Dinosaur) (hI : DinoInv d) : DinoInv d.update := by
  obtain ⟨hair, hgnd⟩ := hI
  by_cases hj : d.is_jumping = true
  · obtain ⟨hdu, hw, hh⟩ := hair hj
    obtain ⟨x, y, w, hgt, vy, j, du⟩ := d
    simp only at hj hdu hw hh
    subst hj
    subst hdu
    subst hw
    subst hh
    by_cases hland : PHYSICS.GROUND_Y ≤ y + (vy + PHYSICS.GRAVITY)
    · unfold Dinosaur.update Dinosaur.update_dimensions
      rw [if_pos rfl, if_pos hland]
      norm_num [DinoInv, PHYSICS.DINO_NORMAL_WIDTH, PHYSICS.DINO_NORMAL_HEIGHT, PHYSICS.DINO_DUCK_WIDTH, PHYSICS.DINO_DUCK_HEIGHT, PHYSICS.GROUND_Y, PHYSICS.GRAVITY, PHYSICS.JUMP_VELOCITY]
    · unfold Dinosaur.update
      rw [if_pos rfl, if_neg hland]
      unfold DinoInv
      norm_num [DinoInv, PHYSICS.DINO_NORMAL_WIDTH, PHYSICS.DINO_NORMAL_HEIGHT, PHYSICS.DINO_DUCK_WIDTH, PHYSICS.DINO_DUCK_HEIGHT, PHYSICS.GROUND_Y, PHYSICS.GRAVITY, PHYSICS.JUMP_VELOCITY]
  · have hjf : d.is_jumping = false := by simpa using hj
    unfold Dinosaur.update
    rw [hjf]
    simp only [Bool.false_eq_true, if_false]
    exact ⟨hair, hgnd⟩

lemma dinoInv_phase (d : Dinosaur) (a : DinoAction) (hI : DinoInv d) :
    DinoInv (match a with
      | DinoAction.JUMP => d.jump
      | DinoAction.DUCK => d.duck
      | DinoAction.IDLE => d.stop_duck).update := by
  cases a
  · exact dinoInv_physics _ (dinoInv_stop_duck _ hI)
  · exact dinoInv_physics _ (dinoInv_jump _ hI)
  · exact dinoInv_physics _ (dinoInv_duck _ hI)

/-! ### Speed invariant -/

/-! ### Arithmetic facts about the binary64 rounding `fl` -/

lemma ediv_num_den (x : ℚ) : Int.ediv x.num (x.den : ℤ) = ⌊x⌋ :=
  (Rat.floor_def).symm

lemma roundHalfEven_int_add_lt (n : ℤ) (c : ℚ) (h0 : 0 ≤ c) (hc : c < 1/2) :
    roundHalfEven ((n : ℚ) + c) = n := by
  have hfl : ⌊(n : ℚ) + c⌋ = n := by
    rw [Int.floor_int_add, Int.floor_eq_zero_iff.mpr ⟨h0, by linarith⟩, add_zero]
  simp only [roundHalfEven, ediv_num_den, hfl]
  rw [if_pos (by linarith)]

lemma roundHalfEven_int_add_gt (n : ℤ) (c : ℚ) (hc : 1/2 < c) (h1 : c < 1) :
    roundHalfEven ((n : ℚ) + c) = n + 1 := by
  have hfl : ⌊(n : ℚ) + c⌋ = n := by
    rw [Int.floor_int_add, Int.floor_eq_zero_iff.mpr ⟨by linarith, h1⟩, add_zero]
  simp only [roundHalfEven, ediv_num_den, hfl]
  rw [if_neg (by linarith), if_pos (by linarith)]

lemma roundHalfEven_err (x : ℚ) : |(roundHalfEven x : ℚ) - x| ≤ 1/2 := by
  simp only [roundHalfEven, ediv_num_den]
  have h1 : (⌊x⌋ : ℚ) ≤ x := Int.floor_le x
  have h2 : x < ⌊x⌋ + 1 := Int.lt_floor_add_one x
  split
  case isTrue h => rw [abs_le]; constructor <;> linarith
  case isFalse h =>
    split
    case isTrue h' => rw [abs_le]; constructor <;> push_cast <;> linarith
    case isFalse h' =>
      have heq : x - (⌊x⌋ : ℚ) = 1/2 := le_antisymm (not_lt.mp h') (not_lt.mp h)
      split <;> (rw [abs_le]; constructor <;> push_cast <;> linarith)

lemma expoUp_stop (f : ℕ) (e : ℤ) (q : ℚ) (h : ¬ ((2:ℚ) ^ (e + 1) ≤ q)) :
    expoUp f e q = e := by
  cases f with
  | zero => rfl
  | succ f => simp only [expoUp, if_neg h]

lemma expoUp_go (f : ℕ) (e : ℤ) (q : ℚ) (h : (2:ℚ) ^ (e + 1) ≤ q) :
    expoUp (f + 1) e q = expoUp f (e + 1) q := by
  simp only [expoUp, if_pos h]

lemma expo_eq_two (q : ℚ) (h1 : (4:ℚ) ≤ q) (h2 : q < 8) : expo q = 2 := by
  have e1 : (1:ℚ) ≤ q := by linarith
  have s1 : ((2:ℚ) ^ ((0:ℤ) + 1) ≤ q) := by norm_num; linarith
  have s2 : ((2:ℚ) ^ ((1:ℤ) + 1) ≤ q) := by norm_num; linarith
  have s3 : ¬ ((2:ℚ) ^ ((2:ℤ) + 1) ≤ q) := by norm_num; linarith
  have g1 : expoUp 1100 0 q = expoUp 1099 ((0:ℤ) + 1) q := expoUp_go 1099 0 q s1
  have g2 : expoUp 1099 1 q = expoUp 1098 ((1:ℤ) + 1) q := expoUp_go 1098 1 q s2
  have g3 : expoUp 1098 2 q = 2 := expoUp_stop 1098 2 q s3
  rw [expo, if_pos e1, g1]
  show expoUp 1099 1 q = 2
  rw [g2]
  show expoUp 1098 2 q = 2
  exact g3

lemma expo_eq_three (q : ℚ) (h1 : (8:ℚ) ≤ q) (h2 : q < 16) : expo q = 3 := by
  have e1 : (1:ℚ) ≤ q := by linarith
  have s1 : ((2:ℚ) ^ ((0:ℤ) + 1) ≤ q) := by norm_num; linarith
  have s2 : ((2:ℚ) ^ ((1:ℤ) + 1) ≤ q) := by norm_num; linarith
  have s3 : ((2:ℚ) ^ ((2:ℤ) + 1) ≤ q) := by norm_num; linarith
  have s4 : ¬ ((2:ℚ) ^ ((3:ℤ) + 1) ≤ q) := by norm_num; linarith
  have g1 : expoUp 1100 0 q = expoUp 1099 ((0:ℤ) + 1) q := expoUp_go 1099 0 q s1
  have g2 : expoUp 1099 1 q = expoUp 1098 ((1:ℤ) + 1) q := expoUp_go 1098 1 q s2
  have g3 : expoUp 1098 2 q = expoUp 1097 ((2:ℤ) + 1) q := expoUp_go 1097 2 q s3
  have g4 : expoUp 1097 3 q = 3 := expoUp_stop 1097 3 q s4
  rw [expo, if_pos e1, g1]
  show expoUp 1099 1 q = 3
  rw [g2]
  show expoUp 1098 2 q = 3
  rw [g3]
  show expoUp 1097 3 q = 3
  exact g4

lemma flPos_eq_of_expo (q : ℚ) (k : ℤ) (he : expo q = k) (hk : k ≤ 52) :
    flPos q = (roundHalfEven (q * ((2 ^ (52 - k).toNat : ℕ) : ℚ)) : ℚ) /
      ((2 ^ (52 - k).toNat : ℕ) : ℚ) := by
  simp only [flPos, he, if_pos hk]

lemma fl_of_pos (q : ℚ) (h : 0 < q) : fl q = flPos q := by
  simp only [fl, if_neg (ne_of_gt h), if_neg (not_lt.mpr (le_of_lt h))]

/-- Exact effect of the rounded speed increment in the binade `[4, 8)`
(rounding grain `2^-50`): adding `double(0.001)` to a multiple of `2^-50`
in this range rounds up to the constant `1125899906843 / 2^50`. -/
lemma fl_step_low (m : ℤ) (h4 : (4:ℚ) ≤ (m:ℚ) / 1125899906842624)
    (h8 : (m:ℚ) / 1125899906842624 + PHYSICS.SPEED_INCREMENT < 8) :
    fl ((m:ℚ) / 1125899906842624 + PHYSICS.SPEED_INCREMENT) =
      (m:ℚ) / 1125899906842624 + 1125899906843 / 1125899906842624 := by
  set s : ℚ := (m:ℚ) / 1125899906842624 with hs
  have hd : (0:ℚ) < PHYSICS.SPEED_INCREMENT := by norm_num [PHYSICS.SPEED_INCREMENT]
  have hq4 : (4:ℚ) ≤ s + PHYSICS.SPEED_INCREMENT := by linarith
  have hqpos : (0:ℚ) < s + PHYSICS.SPEED_INCREMENT := by linarith
  have he : expo (s + PHYSICS.SPEED_INCREMENT) = 2 :=
    expo_eq_two _ (by linarith) (by linarith)
  rw [fl_of_pos _ hqpos, flPos_eq_of_expo _ 2 he (by norm_num)]
  have hscale : (s + PHYSICS.SPEED_INCREMENT) * ((2 ^ (((52:ℤ)) - 2).toNat : ℕ) : ℚ) =
      ((m + 1125899906842 : ℤ) : ℚ) + 639/1024 := by
    rw [hs]
    norm_num [PHYSICS.SPEED_INCREMENT]
    push_cast
    ring
  rw [hscale, roundHalfEven_int_add_gt _ _ (by norm_num) (by norm_num)]
  rw [hs]
  push_cast
  norm_num
  ring

/-- Exact effect of the rounded speed increment in the binade `[8, 16)`
(rounding grain `2^-49`): adding `double(0.001)` to a multiple of `2^-49`
in this range rounds down to the constant `562949953421 / 2^49`. -/
lemma fl_step_high (m : ℤ) (h8 : (8:ℚ) ≤ (m:ℚ) / 562949953421312)
    (h16 : (m:ℚ) / 562949953421312 + PHYSICS.SPEED_INCREMENT < 16) :
    fl ((m:ℚ) / 562949953421312 + PHYSICS.SPEED_INCREMENT) =
      (m:ℚ) / 562949953421312 + 562949953421 / 562949953421312 := by
  set s : ℚ := (m:ℚ) / 562949953421312 with hs
  have hd : (0:ℚ) < PHYSICS.SPEED_INCREMENT := by norm_num [PHYSICS.SPEED_INCREMENT]
  have hq8 : (8:ℚ) ≤ s + PHYSICS.SPEED_INCREMENT := by linarith
  have hqpos : (0:ℚ) < s + PHYSICS.SPEED_INCREMENT := by linarith
  have he : expo (s + PHYSICS.SPEED_INCREMENT) = 3 :=
    expo_eq_three _ (by linarith) (by linarith)
  rw [fl_of_pos _ hqpos, flPos_eq_of_expo _ 3 he (by norm_num)]
  have hscale : (s + PHYSICS.SPEED_INCREMENT) * ((2 ^ (((52:ℤ)) - 3).toNat : ℕ) : ℚ) =
      ((m + 562949953421 : ℤ) : ℚ) + 639/2048 := by
    rw [hs]
    norm_num [PHYSICS.SPEED_INCREMENT]
    push_cast
    ring
  rw [hscale, roundHalfEven_int_add_lt _ _ (by norm_num) (by norm_num)]
  rw [hs]
  push_cast
  norm_num
  ring

/-- Rounding error bound in `[4, 16)`: the grain is at most `2^-49`, so
the round-to-nearest error is at most `2^-50`. -/
lemma fl_err_4_16 (q : ℚ) (h4 : (4:ℚ) ≤ q) (h16 : q < 16) :
    |fl q - q| ≤ 1 / 1125899906842624 := by
  have hqpos : (0:ℚ) < q := by linarith
  rw [fl_of_pos q hqpos]
  by_cases h8 : q < 8
  · have he : expo q = 2 := expo_eq_two q (by linarith) (by linarith)
    rw [flPos_eq_of_expo q 2 he (by norm_num)]
    have herr := roundHalfEven_err (q * ((2 ^ (((52:ℤ)) - 2).toNat : ℕ) : ℚ))
    have hMn : ((2 ^ (((52:ℤ)) - 2).toNat : ℕ) : ℚ) = 1125899906842624 := by
      simp only [show ((52:ℤ) - 2).toNat = 50 from rfl]
      norm_num
    rw [hMn] at herr ⊢
    have h1 : (roundHalfEven (q * 1125899906842624) : ℚ) / 1125899906842624 - q =
        ((roundHalfEven (q * 1125899906842624) : ℚ) - q * 1125899906842624) /
          1125899906842624 := by
      field_simp
      ring
    rw [h1, abs_div, abs_of_pos (by norm_num : (0:ℚ) < 1125899906842624)]
    calc |(roundHalfEven (q * 1125899906842624) : ℚ) - q * 1125899906842624| /
          1125899906842624
        ≤ (1/2) / 1125899906842624 := by
          exact (div_le_div_iff_of_pos_right (by norm_num)).mpr herr
      _ ≤ 1 / 1125899906842624 := by norm_num
  · have he : expo q = 3 := expo_eq_three q (by linarith) (by linarith)
    rw [flPos_eq_of_expo q 3 he (by norm_num)]
    have herr := roundHalfEven_err (q * ((2 ^ (((52:ℤ)) - 3).toNat : ℕ) : ℚ))
    have hMn : ((2 ^ (((52:ℤ)) - 3).toNat : ℕ) : ℚ) = 562949953421312 := by
      simp only [show ((52:ℤ) - 3).toNat = 49 from rfl]
      norm_num
    rw [hMn] at herr ⊢
    have h1 : (roundHalfEven (q * 562949953421312) : ℚ) / 562949953421312 - q =
        ((roundHalfEven (q * 562949953421312) : ℚ) - q * 562949953421312) /
          562949953421312 := by
      field_simp
      ring
    rw [h1, abs_div, abs_of_pos (by norm_num : (0:ℚ) < 562949953421312)]
    calc |(roundHalfEven (q * 562949953421312) : ℚ) - q * 562949953421312| /
          562949953421312
        ≤ (1/2) / 562949953421312 := by
          exact (div_le_div_iff_of_pos_right (by norm_num)).mpr herr
      _ ≤ 1 / 1125899906842624 := by norm_num

/-! ### Speed invariant preservation under the IEEE-rounded increment -/

lemma speedInv_le (q : ℚ) (h : SpeedInv q) :
    q ≤ PHYSICS.MAX_SPEED + PHYSICS.SPEED_INCREMENT + 1 / 1125899906842624 := h.2

lemma update_speed_cases (e : DinoGameEngine) (a : DinoAction) (g : Rng) :
    (e.update a g).1.speed =
      (if e.game_over then e.speed
       else if e.speed < PHYSICS.MAX_SPEED then fl (e.speed + PHYSICS.SPEED_INCREMENT)
       else e.speed) := by
  by_cases hov : e.game_over = true
  · rw [update_of_terminated e a g hov, hov]
    simp
  · have hovf : e.game_over = false := by simpa using hov
    rw [update_speed e a g hovf, hovf]
    simp

/-- The rounded increment strictly increases a speed in `[6, MAX_SPEED)`
and overshoots the exact sum by at most `2^-50`. -/
lemma speedStep_bounds (s : ℚ) (h6 : 6 ≤ s) (hlt : s < PHYSICS.MAX_SPEED) :
    s < fl (s + PHYSICS.SPEED_INCREMENT) ∧
    fl (s + PHYSICS.SPEED_INCREMENT) ≤
      s + PHYSICS.SPEED_INCREMENT + 1 / 1125899906842624 := by
  have hmax : s < 15 := by
    have h := hlt
    rw [PHYSICS.MAX_SPEED] at h
    exact h
  have h4 : (4:ℚ) ≤ s + PHYSICS.SPEED_INCREMENT := by
    norm_num [PHYSICS.SPEED_INCREMENT]
    linarith
  have h16 : s + PHYSICS.SPEED_INCREMENT < 16 := by
    norm_num [PHYSICS.SPEED_INCREMENT]
    linarith
  have herr := fl_err_4_16 _ h4 h16
  rw [abs_le] at herr
  have hgap : (0:ℚ) < PHYSICS.SPEED_INCREMENT - 1 / 1125899906842624 := by
    norm_num [PHYSICS.SPEED_INCREMENT]
  constructor
  · linarith [herr.1]
  · linarith [herr.2]

lemma speedInv_update (e : DinoGameEngine) (a : DinoAction) (g : Rng)
    (h : SpeedInv e.speed) : SpeedInv ((e.update a g).1.speed) := by
  obtain ⟨h6, hub⟩ := h
  rw [update_speed_cases]
  split
  · exact ⟨h6, hub⟩
  · split
    case isTrue hlt =>
      obtain ⟨hlo, hhi⟩ := speedStep_bounds e.speed h6 hlt
      exact ⟨by linarith, by linarith [le_of_lt hlt]⟩
    case isFalse hge => exact ⟨h6, hub⟩

lemma update_speed_mono (e : DinoGameEngine) (a : DinoAction) (g : Rng)
    (h : SpeedInv e.speed) :
    e.speed ≤ (e.update a g).1.speed ∧
    (e.update a g).1.speed ≤
      e.speed + PHYSICS.SPEED_INCREMENT + 1 / 1125899906842624 := by
  obtain ⟨h6, hub⟩ := h
  have hd0 : (0:ℚ) < PHYSICS.SPEED_INCREMENT + 1 / 1125899906842624 := by
    norm_num [PHYSICS.SPEED_INCREMENT]
  rw [update_speed_cases]
  split
  · exact ⟨le_refl _, by linarith⟩
  · split
    case isTrue hlt =>
      obtain ⟨hlo, hhi⟩ := speedStep_bounds e.speed h6 hlt
      exact ⟨le_of_lt hlo, hhi⟩
    case isFalse hge => exact ⟨le_refl _, by linarith⟩

/-! ### The combined invariant holds in every reachable state -/

lemma engineInv_init (w h : Option ℤ) (g : Rng)
    (h0 : 0 ≤ resolveDim w PHYSICS.GAME_WIDTH) :
    EngineInv (DinoGameEngine.init w h g).1 := by
  refine ⟨h0, ?_, ?_, ?_⟩
  · show DinoInv (Dinosaur.init PHYSICS.DINO_X_POSITION PHYSICS.GROUND_Y)
    unfold Dinosaur.init DinoInv
    norm_num [PHYSICS.GROUND_Y, PHYSICS.DINO_NORMAL_WIDTH, PHYSICS.DINO_NORMAL_HEIGHT]
  · show SpeedInv PHYSICS.BASE_SPEED
    constructor
    · norm_num [PHYSICS.BASE_SPEED]
    · norm_num [PHYSICS.BASE_SPEED, PHYSICS.MAX_SPEED, PHYSICS.SPEED_INCREMENT]
  · intro o ho
    exact absurd ho (by simp [DinoGameEngine.init])

lemma engineInv_reset (e : DinoGameEngine) (g : Rng) (h0 : 0 ≤ e.width) :
    EngineInv (e.reset g).1 := by
  refine ⟨h0, ?_, ?_, ?_⟩
  · show DinoInv (Dinosaur.init PHYSICS.DINO_X_POSITION e.ground_y)
    unfold Dinosaur.init DinoInv
    norm_num [PHYSICS.GROUND_Y, PHYSICS.DINO_NORMAL_WIDTH, PHYSICS.DINO_NORMAL_HEIGHT]
  · show SpeedInv PHYSICS.BASE_SPEED
    constructor
    · norm_num [PHYSICS.BASE_SPEED]
    · norm_num [PHYSICS.BASE_SPEED, PHYSICS.MAX_SPEED, PHYSICS.SPEED_INCREMENT]
  · intro o ho
    exact absurd ho (by simp [DinoGameEngine.reset])

lemma engineInv_update (e : DinoGameEngine) (a : DinoAction) (g : Rng)
    (h : EngineInv e) : EngineInv (e.update a g).1 := by
  obtain ⟨hw, hd, hs, hobs⟩ := h
  refine ⟨?_, ?_, speedInv_update e a g hs, update_obsinv e a g hw hobs⟩
  · rw [update_width]
    exact hw
  · by_cases hov : e.game_over = true
    · rw [update_of_terminated e a g hov]
      exact hd
    · have hovf : e.game_over = false := by simpa using hov
      rw [update_dinosaur_eq e a g hovf]
      exact dinoInv_phase e.dinosaur a hd

lemma reachable_inv (e : DinoGameEngine) (h : Reachable e) : EngineInv e := by
  induction h with
  | init w hh g h0 => exact engineInv_init w hh g h0
  | reset e2 g _ ih => exact engineInv_reset e2 g ih.1
  | step e2 a g _ ih => exact engineInv_update e2 a g ih

/-! ### A grounded runner never overlaps a well-placed obstacle -/

lemma grounded_no_collision (d : Dinosaur) (o : Obstacle)
    (hj : d.is_jumping = false) (hd : DinoInv d) (ho : ObsInv o) :
    d.collides_with o = false := by
  have hpose : (pyInt d.y = 200 ∧ d.height = 47) ∨ (pyInt d.y = 221 ∧ d.height = 26) := by
    rcases hd.2 hj with ⟨-, hy, -, hh⟩ | ⟨-, hy, -, hh⟩
    · exact Or.inl ⟨by rw [hy]; with_unfolding_all rfl, hh⟩
    · exact Or.inr ⟨by rw [hy]; with_unfolding_all rfl, hh⟩
  have hobound : pyInt o.y + o.height ≤ 200 ∧ 0 ≤ o.height := by
    rcases ho.2.2 with ⟨-, hy, hh⟩ | ⟨-, hy, hh⟩
    · rw [hy, hh]
      constructor
      · with_unfolding_all decide
      · with_unfolding_all decide
    · rcases hy with hy | hy | hy <;> rw [hy, hh] <;> constructor <;>
        with_unfolding_all decide
  cases hco : d.collides_with o
  · rfl
  · exfalso
    unfold Dinosaur.collides_with colliderect Dinosaur.get_rect Obstacle.get_rect at hco
    simp only [Bool.and_eq_true, decide_eq_true_eq] at hco
    obtain ⟨⟨⟨⟨⟨⟨⟨-, -⟩, -⟩, -⟩, -⟩, -⟩, hy1⟩, -⟩ := hco
    have hdh : 0 ≤ d.height := by
      rcases hpose with ⟨-, hh⟩ | ⟨-, hh⟩ <;> rw [hh] <;> decide
    rw [min_eq_left (by omega), max_eq_right (by omega)] at hy1
    rcases hpose with ⟨hyv, -⟩ | ⟨hyv, -⟩ <;> omega

/-- A tick from a reachable Running state that ends with the runner
grounded cannot have terminated the episode: the collision check compares
the phase-updated runner against the advanced obstacles, and a grounded
runner overlaps none of them. -/
lemma grounded_tick_no_termination (e : DinoGameEngine) (a : DinoAction)
    (g : Rng) (hr : Reachable e) (hrun : e.game_over = false)
    (hg2 : (e.update a g).1.dinosaur.is_jumping = false) :
    (e.update a g).1.game_over = false := by
  obtain ⟨hw, hd, hs, hobs⟩ := reachable_inv e hr
  rw [update_dinosaur_eq e a g hrun] at hg2
  unfold DinoGameEngine.update
  rw [hrun]
  simp only [Bool.false_eq_true, if_false, update_game_progression_game_over,
    check_collisions_game_over, update_clouds_game_over, update_clouds_obstacles,
    update_clouds_dinosaur, update_obstacles_game_over, update_obstacles_dinosaur]
  simp only [hrun, Bool.or_false]
  rw [List.any_eq_false]
  intro o ho
  have hoInv : ObsInv o := by
    refine update_obstacles_obsinv _ g ?_ ?_ o ho
    · exact hw
    · exact hobs
  simp only [Bool.not_eq_true]
  exact grounded_no_collision _ o hg2 (dinoInv_phase e.dinosaur a hd) hoInv

/-! ### C3: a grounded runner never collides; no termination while grounded -/

/-- C3: in every reachable Running state, whenever the runner is on the
ground (standing or ducking), the collision test is false against every
active obstacle, and a tick that ends with the runner grounded cannot have
terminated the episode. -/
theorem C3_grounded_runner_never_collides (e : DinoGameEngine) (a : DinoAction)
    (g : Rng) (hr : Reachable e)
    (hg : e.dinosaur.is_jumping = false)
    (hrun : e.game_over = false)
    (hg2 : (e.update a g).1.dinosaur.is_jumping = false) :
    e.obstacles.all (fun o => !(e.dinosaur.collides_with o)) = true ∧
    (e.update a g).1.game_over = false := by
  obtain ⟨hw, hd, hs, hobs⟩ := reachable_inv e hr
  constructor
  · rw [List.all_eq_true]
    intro o ho
    rw [grounded_no_collision e.dinosaur o hg hd (hobs o ho)]
    rfl
  · exact grounded_tick_no_termination e a g hr hrun hg2

/-- A freshly constructed engine (default dimensions) and the generator
state after construction, used to instantiate reachability hypotheses. -/
def engineI : DinoGameEngine := (DinoGameEngine.init none none rngW).1

def rngI : Rng := (DinoGameEngine.init none none rngW).2

/-- Witness for C3 at the freshly constructed (grounded, Running) state. -/
theorem C3_grounded_runner_never_collides_witness :
    engineI.obstacles.all (fun o => !(engineI.dinosaur.collides_with o)) = true ∧
    (engineI.update DinoAction.IDLE rngI).1.game_over = false :=
  C3_grounded_runner_never_collides engineI DinoAction.IDLE rngI
    (Reachable.init none none rngW (by decide))
    (by with_unfolding_all rfl) rfl (by with_unfolding_all rfl)

/-! ### C7: no off-screen obstacle survives a tick -/

/-- C7: after every `update` call in a reachable Running state, no obstacle
left in the active collection has its trailing edge past the left boundary
(`x + width < 0`).  This holds even on ticks where consecutive obstacles
are advanced past the boundary: an advanced off-screen obstacle is always
erased, and an obstacle skipped by the in-place removal is left unmoved,
hence still on screen. -/
theorem C7_offscreen_obstacles_culled (e : DinoGameEngine) (a : DinoAction)
    (g : Rng) (hr : Reachable e) (_hrun : e.game_over = false) :
    (e.update a g).1.obstacles.all (fun o => !(o.is_off_screen)) = true := by
  rw [List.all_eq_true]
  intro o ho
  have hinv := reachable_inv _ (Reachable.step e a g hr)
  obtain ⟨h1, -, -⟩ := hinv.2.2.2 o ho
  simp only [Obstacle.is_off_screen, Bool.not_eq_true', decide_eq_false_iff_not, not_lt]
  exact h1

/-- Witness for C7 at the freshly constructed state. -/
theorem C7_offscreen_obstacles_culled_witness :
    (engineI.update DinoAction.IDLE rngI).1.obstacles.all
      (fun o => !(o.is_off_screen)) = true :=
  C7_offscreen_obstacles_culled engineI DinoAction.IDLE rngI
    (Reachable.init none none rngW (by decide)) rfl

/-! ### C4: speed monotonicity and bounds -/

/-- Driving an engine by a whole action sequence (repeated `update`). -/
def runActions (e : DinoGameEngine) (as : List DinoAction) (g : Rng) :
    DinoGameEngine × Rng :=
  match as with
  | [] => (e, g)
  | a :: rest => runActions (e.update a g).1 rest (e.update a g).2

lemma runActions_speed (e : DinoGameEngine) (as : List DinoAction) (g : Rng)
    (h : SpeedInv e.speed) :
    e.speed ≤ (runActions e as g).1.speed ∧
    SpeedInv ((runActions e as g).1.speed) := by
  induction as generalizing e g with
  | nil => exact ⟨le_refl _, h⟩
  | cons a rest ih =>
    have hnext := ih (e.update a g).1 (e.update a g).2 (speedInv_update e a g h)
    simp only [runActions]
    exact ⟨le_trans (update_speed_mono e a g h).1 hnext.1, hnext.2⟩

/-- The speed progression of one tick as a pure function (the
`speed < max_speed` branch of `_update_game_progression`). -/
def speedStep (s : ℚ) : ℚ :=
  if s < PHYSICS.MAX_SPEED then fl (s + PHYSICS.SPEED_INCREMENT) else s

/-- The speed after `n` progressions from `s`. -/
def speedIter : ℕ → ℚ → ℚ
  | 0, s => s
  | n + 1, s => speedStep (speedIter n s)

lemma speedIter_succ_comm (n : ℕ) (s : ℚ) :
    speedIter (n + 1) s = speedIter n (speedStep s) := by
  induction n generalizing s with
  | zero => rfl
  | succ n ih =>
    show speedStep (speedIter (n + 1) s) = _
    rw [ih]
    rfl

/-- Closed form of the speed trajectory while inside the binade `[4, 8)`:
1999 uniform steps of `1125899906843/2^50` starting from 6. -/
lemma speedIter_low : ∀ j : ℕ, j ≤ 1999 →
    speedIter j 6 = 6 + (j:ℚ) * (1125899906843 / 1125899906842624) := by
  intro j
  induction j with
  | zero =>
    intro _
    norm_num [speedIter]
  | succ j ih =>
    intro hj
    have hval := ih (by omega)
    have hjq : (j:ℚ) ≤ 1998 := by exact_mod_cast (by omega : j ≤ 1998)
    have hjq0 : (0:ℚ) ≤ (j:ℚ) := Nat.cast_nonneg j
    have hmul : (j:ℚ) * (1125899906843 / 1125899906842624) ≤
        1998 * (1125899906843 / 1125899906842624) := by
      apply mul_le_mul_of_nonneg_right hjq
      norm_num
    have hmul0 : (0:ℚ) ≤ (j:ℚ) * (1125899906843 / 1125899906842624) := by positivity
    show speedStep (speedIter j 6) = _
    rw [hval]
    unfold speedStep
    rw [if_pos (by norm_num [PHYSICS.MAX_SPEED] at hmul ⊢; linarith)]
    have hm : (6:ℚ) + (j:ℚ) * (1125899906843 / 1125899906842624) =
        ((6755399441055744 + (j:ℤ) * 1125899906843 : ℤ) : ℚ) / 1125899906842624 := by
      push_cast
      ring
    rw [hm, fl_step_low _ ?h4 ?h8]
    case h4 =>
      rw [← hm]
      linarith
    case h8 =>
      rw [← hm]
      have hc : (6:ℚ) + 1998 * (1125899906843 / 1125899906842624) +
          PHYSICS.SPEED_INCREMENT < 8 := by
        norm_num [PHYSICS.SPEED_INCREMENT]
      linarith
    rw [← hm]
    push_cast
    ring

unseal Rat.add Rat.mul Rat.inv Rat.sub Rat.ofScientific in
/-- The single binade-crossing step: one concrete `fl` evaluation at the
value reached after 1999 increments. -/
lemma fl_cross :
    fl ((9006073354834901 : ℚ) / 1125899906842624 + PHYSICS.SPEED_INCREMENT) =
      4503599627370872 / 562949953421312 := by
  decide

lemma speedIter_cross :
    speedIter 2000 6 = 4503599627370872 / 562949953421312 := by
  have h19 : speedIter 1999 6 = 9006073354834901 / 1125899906842624 := by
    rw [speedIter_low 1999 (le_refl _)]
    norm_num
  show speedStep (speedIter 1999 6) = _
  rw [h19]
  unfold speedStep
  rw [if_pos (by norm_num [PHYSICS.MAX_SPEED])]
  exact fl_cross

/-- Closed form of the speed trajectory inside the binade `[8, 16)`: 7001
uniform steps of `562949953421/2^49` from the crossing value; the guard
`speed < 15` still holds at step 7000 (the value is `15 - 1808/2^49`), so
a 7001st increment is applied and the final value exceeds 15. -/
lemma speedIter_high : ∀ j : ℕ, j ≤ 7001 →
    speedIter (2000 + j) 6 =
      4503599627370872 / 562949953421312 +
        (j:ℚ) * (562949953421 / 562949953421312) := by
  intro j
  induction j with
  | zero =>
    intro _
    simpa using speedIter_cross
  | succ j ih =>
    intro hj
    have hval := ih (by omega)
    have hjq : (j:ℚ) ≤ 7000 := by exact_mod_cast (by omega : j ≤ 7000)
    have hjq0 : (0:ℚ) ≤ (j:ℚ) := Nat.cast_nonneg j
    have hmul : (j:ℚ) * (562949953421 / 562949953421312) ≤
        7000 * (562949953421 / 562949953421312) := by
      apply mul_le_mul_of_nonneg_right hjq
      norm_num
    have hmul0 : (0:ℚ) ≤ (j:ℚ) * (562949953421 / 562949953421312) := by positivity
    show speedStep (speedIter (2000 + j) 6) = _
    rw [hval]
    unfold speedStep
    rw [if_pos (by norm_num [PHYSICS.MAX_SPEED] at hmul ⊢; linarith)]
    have hm : (4503599627370872:ℚ) / 562949953421312 +
          (j:ℚ) * (562949953421 / 562949953421312) =
        ((4503599627370872 + (j:ℤ) * 562949953421 : ℤ) : ℚ) / 562949953421312 := by
      push_cast
      ring
    rw [hm, fl_step_high _ ?h8 ?h16]
    case h8 =>
      rw [← hm]
      norm_num at hmul0 ⊢
      linarith
    case h16 =>
      rw [← hm]
      have hc : (4503599627370872:ℚ) / 562949953421312 +
          7000 * (562949953421 / 562949953421312) + PHYSICS.SPEED_INCREMENT < 16 := by
        norm_num [PHYSICS.SPEED_INCREMENT]
      linarith
    rw [← hm]
    push_cast
    ring

/-- After 9001 progressions from the base speed the stored value is
`8444812251271293/2^49 = 15.000999999996788...`, strictly above 15. -/
lemma speedIter_exceeds : (15:ℚ) < speedIter 9001 6 ∧
    speedIter 9001 6 = 8444812251271293 / 562949953421312 := by
  have h := speedIter_high 7001 (le_refl _)
  have h2 : speedIter 9001 6 =
      4503599627370872 / 562949953421312 +
        (7001:ℚ) * (562949953421 / 562949953421312) := by
    exact_mod_cast h
  rw [h2]
  norm_num

/-! ### A grounded runner driven by IDLE stays grounded and alive -/

lemma stop_duck_is_jumping (d : Dinosaur) :
    d.stop_duck.is_jumping = d.is_jumping := by
  unfold Dinosaur.stop_duck Dinosaur.update_dimensions
  split
  · split <;> rfl
  · rfl

lemma update_grounded (d : Dinosaur) (h : d.is_jumping = false) : d.update = d := by
  unfold Dinosaur.update
  rw [h]
  simp

lemma idle_tick_grounded (e : DinoGameEngine) (g : Rng)
    (hov : e.game_over = false) (hj : e.dinosaur.is_jumping = false) :
    (e.update DinoAction.IDLE g).1.dinosaur.is_jumping = false := by
  rw [update_dinosaur_eq e DinoAction.IDLE g hov]
  show (e.dinosaur.stop_duck.update).is_jumping = false
  rw [update_grounded _ (by rw [stop_duck_is_jumping]; exact hj),
    stop_duck_is_jumping]
  exact hj

lemma update_speed_eq_speedStep (e : DinoGameEngine) (a : DinoAction) (g : Rng)
    (h : e.game_over = false) : (e.update a g).1.speed = speedStep e.speed := by
  rw [update_speed e a g h]
  rfl

/-- Driving a grounded reachable Running state by `n` IDLE ticks: the
episode survives every tick (a grounded runner collides with nothing) and
the speed follows the pure progression `speedIter`. -/
lemma runIdle_props : ∀ (n : ℕ) (e : DinoGameEngine) (g : Rng), Reachable e →
    e.game_over = false → e.dinosaur.is_jumping = false →
    (runActions e (List.replicate n DinoAction.IDLE) g).1.game_over = false ∧
    (runActions e (List.replicate n DinoAction.IDLE) g).1.speed =
      speedIter n e.speed := by
  intro n
  induction n with
  | zero =>
    intro e g _ hov _
    exact ⟨hov, rfl⟩
  | succ n ih =>
    intro e g hr hov hj
    have hg2 : (e.update DinoAction.IDLE g).1.dinosaur.is_jumping = false :=
      idle_tick_grounded e g hov hj
    have hov2 : (e.update DinoAction.IDLE g).1.game_over = false :=
      grounded_tick_no_termination e DinoAction.IDLE g hr hov hg2
    have hr2 : Reachable (e.update DinoAction.IDLE g).1 :=
      Reachable.step e DinoAction.IDLE g hr
    obtain ⟨ha, hb⟩ := ih (e.update DinoAction.IDLE g).1 (e.update DinoAction.IDLE g).2
      hr2 hov2 hg2
    rw [List.replicate_succ]
    refine ⟨ha, ?_⟩
    show (runActions (e.update DinoAction.IDLE g).1 _ _).1.speed = _
    rw [hb, update_speed_eq_speedStep e DinoAction.IDLE g hov]
    exact (speedIter_succ_comm n e.speed).symm

/-- C4 counterexample: from the freshly constructed engine, 9001 IDLE
ticks — all of them non-terminal, since a grounded runner never collides —
drive the speed to `15.000999999996788... > 15`: at tick 9000 the stored
speed is `15 - 1808/2^49`, the `speed < max_speed` guard still passes, and
the 9001st IEEE-rounded increment lands above the maximum.  The speed does
exceed `MAX_SPEED` on a real trajectory. -/
theorem C4_speed_max_exceeded_counterexample :
    (runActions engineI (List.replicate 9001 DinoAction.IDLE) rngI).1.game_over
        = false ∧
    PHYSICS.MAX_SPEED <
      (runActions engineI (List.replicate 9001 DinoAction.IDLE) rngI).1.speed := by
  obtain ⟨hov, hsp⟩ := runIdle_props 9001 engineI rngI
    (Reachable.init none none rngW (by decide)) rfl (by with_unfolding_all rfl)
  refine ⟨hov, ?_⟩
  rw [hsp, show engineI.speed = 6 from by with_unfolding_all rfl]
  obtain ⟨hgt, _⟩ := speedIter_exceeds
  rw [PHYSICS.MAX_SPEED]
  exact hgt

/-- C4 amended: from any reachable Running state, one tick leaves the
speed non-decreasing, increased by at most one increment plus one rounding
error (`2^-50`), and unchanged once the maximum has been reached; over any
whole action sequence the speed is non-decreasing.  The speed is NOT
bounded by the configured maximum: the correct invariant bound is
`MAX_SPEED + SPEED_INCREMENT + 2^-50` (one more rounded increment can be
applied from just below the maximum, and a real trajectory reaches
`≈ 15.001`). -/
theorem C4_speed_progression (e : DinoGameEngine) (a : DinoAction)
    (as : List DinoAction) (g : Rng) (hr : Reachable e)
    (_hrun : e.game_over = false) :
    e.speed ≤ (e.update a g).1.speed ∧
    (e.update a g).1.speed ≤
      e.speed + PHYSICS.SPEED_INCREMENT + 1 / 1125899906842624 ∧
    (e.update a g).1.speed ≤
      PHYSICS.MAX_SPEED + PHYSICS.SPEED_INCREMENT + 1 / 1125899906842624 ∧
    (PHYSICS.MAX_SPEED ≤ e.speed → (e.update a g).1.speed = e.speed) ∧
    e.speed ≤ (runActions e as g).1.speed ∧
    (runActions e as g).1.speed ≤
      PHYSICS.MAX_SPEED + PHYSICS.SPEED_INCREMENT + 1 / 1125899906842624 := by
  have hs := (reachable_inv e hr).2.2.1
  have hrunA := runActions_speed e as g hs
  refine ⟨(update_speed_mono e a g hs).1, (update_speed_mono e a g hs).2, ?_, ?_,
    hrunA.1, ?_⟩
  · exact speedInv_le _ (speedInv_update e a g hs)
  · intro hge
    rw [update_speed_cases]
    have hnlt : ¬(e.speed < PHYSICS.MAX_SPEED) := not_lt.mpr hge
    split <;> simp [hnlt]
  · exact speedInv_le _ hrunA.2

/-- Witness for C4's amended statement at the freshly constructed state,
one IDLE tick and a two-tick sequence. -/
theorem C4_speed_progression_witness :
    engineI.speed ≤ (engineI.update DinoAction.IDLE rngI).1.speed ∧
    (engineI.update DinoAction.IDLE rngI).1.speed ≤
      engineI.speed + PHYSICS.SPEED_INCREMENT + 1 / 1125899906842624 ∧
    (engineI.update DinoAction.IDLE rngI).1.speed ≤
      PHYSICS.MAX_SPEED + PHYSICS.SPEED_INCREMENT + 1 / 1125899906842624 ∧
    (PHYSICS.MAX_SPEED ≤ engineI.speed →
      (engineI.update DinoAction.IDLE rngI).1.speed = engineI.speed) ∧
    engineI.speed ≤
      (runActions engineI [DinoAction.IDLE, DinoAction.JUMP] rngI).1.speed ∧
    (runActions engineI [DinoAction.IDLE, DinoAction.JUMP] rngI).1.speed ≤
      PHYSICS.MAX_SPEED + PHYSICS.SPEED_INCREMENT + 1 / 1125899906842624 :=
  C4_speed_progression engineI DinoAction.IDLE [DinoAction.IDLE, DinoAction.JUMP]
    rngI (Reachable.init none none rngW (by decide)) rfl

/-! ### C2: determinism and ownership of the random generator -/

/-- Interleaved execution of two engines in one process: each round ticks
engine A then engine B, both drawing from the single process-global
generator, as the module-level `random` functions do. -/
def interleaveRun : ℕ → DinoGameEngine → DinoGameEngine → Rng →
    DinoGameEngine × DinoGameEngine × Rng
  | 0, ea, eb, g => (ea, eb, g)
  | n + 1, ea, eb, g =>
    interleaveRun n (ea.update DinoAction.IDLE g).1
      ((eb.update DinoAction.IDLE (ea.update DinoAction.IDLE g).2).1)
      ((eb.update DinoAction.IDLE (ea.update DinoAction.IDLE g).2).2)

/-- A global stream: every draw reads 0 except the sixth, which reads 78
(the draw that happens to serve engine B's reset). -/
def rngC2 : Rng := ⟨fun n => if n = 5 then 78 else 0, 0⟩

def engineA0 : DinoGameEngine × Rng := DinoGameEngine.init none none rngC2

def engineB0 : DinoGameEngine × Rng := DinoGameEngine.init none none engineA0.2

def engineA1 : DinoGameEngine × Rng := engineA0.1.reset engineB0.2

def engineB1 : DinoGameEngine × Rng := engineB0.1.reset engineA1.2

def finalC2 : DinoGameEngine × DinoGameEngine × Rng :=
  interleaveRun 20 engineA1.1 engineB1.1 engineB1.2

set_option maxRecDepth 1000000 in
unseal Rat.add Rat.mul Rat.inv Rat.sub Rat.ofScientific in
/-- C2 counterexample: two engine instances are constructed and then reset
in the same process — the only notion of "seeding identically at reset"
the code admits, since `reset` takes no seed and draws from the shared
module-level generator.  Both are driven by the identical action sequence
(IDLE at every tick, interleaved A then B).  Because the two resets
consume consecutive draws of the one global stream, the engines receive
different obstacle-gap thresholds; after 20 ticks engine A has spawned an
obstacle and engine B has not, and their `get_state` snapshots differ. -/
theorem C2_determinism_counterexample :
    (finalC2.1.get_state).obstacles = 1 ∧
    (finalC2.2.1.get_state).obstacles = 0 ∧
    finalC2.1.get_state ≠ finalC2.2.1.get_state := by
  decide

/-- The sequence of snapshots along an action sequence. -/
def snapshotTrace (e : DinoGameEngine) (as : List DinoAction) (g : Rng) :
    List GameStateSnapshot :=
  match as with
  | [] => []
  | a :: rest =>
    (e.update a g).1.get_state ::
      snapshotTrace (e.update a g).1 rest (e.update a g).2

/-- C2 amended: the simulation itself is deterministic — the snapshot at
every tick is a function of the starting state, the action sequence, and
the state of the generator alone, so two runs from equal engine states
with equal generator states and equal action sequences produce bit-for-bit
identical snapshot traces.  But the generator is the process-global one,
not owned by the engine instance, and `reset()` does not seed it: runs are
reproducible only when the global generator is restored to the same state
and no other consumer (such as a second engine, interleaved) draws from
it. -/
theorem C2_stream_determinism (e1 e2 : DinoGameEngine) (g1 g2 : Rng)
    (as1 as2 : List DinoAction) (he : e1 = e2) (hg : g1 = g2) (ha : as1 = as2) :
    snapshotTrace e1 as1 g1 = snapshotTrace e2 as2 g2 := by
  subst he
  subst hg
  subst ha
  rfl

/-- Witness for C2's amended determinism statement: two identical runs of
the freshly constructed engine produce the same snapshot trace. -/
theorem C2_stream_determinism_witness :
    snapshotTrace engineI [DinoAction.IDLE, DinoAction.JUMP] rngI =
      snapshotTrace engineI [DinoAction.IDLE, DinoAction.JUMP] rngI :=
  C2_stream_determinism engineI engineI rngI rngI
    [DinoAction.IDLE, DinoAction.JUMP] [DinoAction.IDLE, DinoAction.JUMP]
    rfl rfl rfl

end DinoGym
